import Mathlib

/-!
# SSD1619 e-paper driver: shallow embedding

Embedding of `components/epd_drivers/src/epd_ssd1619.c` (with the types of
`epd_common.h`) as state-passing Lean functions.

* The machine state holds the one device object the driver works on, the
  trace of every call into the bus / GPIO / timing layer, and three counters
  (busy polls, heap allocations and bus bring-ups made) that index the
  environment.
* The environment fixes what the hardware answers: the level of the busy
  input at each poll, whether each heap allocation succeeds, and the result
  of each bus bring-up.
* `uint16_t` / `uint32_t` / `int` values are natural numbers or integers with
  the conversions written out (`toU16`, `toU32`, `toInt32`).
* A device pointer is `DevPtr` (null or the address of the device of the
  state); a buffer pointer is `Option (List Nat)` (null or the bytes it points
  to).  Reading past those bytes is the outcome `fault`; a busy-wait loop that
  outlives its fuel is the outcome `hang`.
-/

namespace Epd

/-! ## Types of `epd_common.h` -/

/-- Driver chip type (`epd_type_t`). -/
inductive epd_type_t where
  | EPD_UNKNOWN
  | EPD_SSD1619
  | EPD_IL3820
  | EPD_UC8151
  | EPD_SSD1675
  | EPD_MAX_TYPE
  deriving DecidableEq, Repr

/-- Colour mode (`epd_color_mode_t`). -/
inductive epd_color_mode_t where
  | EPD_MODE_1C
  | EPD_MODE_3C
  | EPD_MODE_4C
  deriving DecidableEq, Repr

/-- Colours (`epd_color_t`). -/
inductive epd_color_t where
  | EPD_COLOR_WHITE
  | EPD_COLOR_BLACK
  | EPD_COLOR_RED
  | EPD_COLOR_YELLOW
  deriving DecidableEq, Repr

/-- Refresh mode (`epd_update_mode_t`). -/
inductive epd_update_mode_t where
  | EPD_UPDATE_FULL
  | EPD_UPDATE_PARTIAL
  | EPD_UPDATE_FAST
  deriving DecidableEq, Repr

/-- Capability flag `EPD_CAP_PARTIAL_REFRESH` = `1 << 0`. -/
def EPD_CAP_PARTIAL_REFRESH : Nat := 1 <<< 0
/-- Capability flag `EPD_CAP_FAST_REFRESH` = `1 << 1`. -/
def EPD_CAP_FAST_REFRESH : Nat := 1 <<< 1
/-- Capability flag `EPD_CAP_POWER_CONTROL` = `1 << 2`. -/
def EPD_CAP_POWER_CONTROL : Nat := 1 <<< 2
/-- Capability flag `EPD_CAP_TEMP_COMPENSATION` = `1 << 3`. -/
def EPD_CAP_TEMP_COMPENSATION : Nat := 1 <<< 3
/-- Capability flag `EPD_CAP_ROTATION` = `1 << 4`. -/
def EPD_CAP_ROTATION : Nat := 1 <<< 4

/-- Error codes (`esp_err_t`) are plain integers. -/
abbrev esp_err_t := Int

/-- Success. -/
def ESP_OK : esp_err_t := 0
/-- Out of memory (`0x101`). -/
def ESP_ERR_NO_MEM : esp_err_t := 0x101
/-- Invalid argument (`0x102`). -/
def ESP_ERR_INVALID_ARG : esp_err_t := 0x102

/-- Pin configuration (`epd_pins_t`, all fields `int8_t`). -/
structure epd_pins_t where
  spi_miso : Int
  spi_mosi : Int
  spi_clk : Int
  spi_cs : Int
  dc_pin : Int
  rst_pin : Int
  busy_pin : Int
  pwr_en_pin : Int
  deriving DecidableEq, Repr

/-- Device information (`epd_info_t`). -/
structure epd_info_t where
  type : epd_type_t
  chip_name : String
  width : Nat
  height : Nat
  color_mode : epd_color_mode_t
  capabilities : Nat
  version : Nat
  deriving DecidableEq, Repr

/-- Private data of the SSD1619 driver (`ssd1619_priv_t`). -/
structure ssd1619_priv_t where
  lut_full : List Nat
  lut_partial : List Nat
  rotation : Nat
  initialized : Bool
  deriving DecidableEq, Repr

/-- The device object (`epd_device_t`).  The function-pointer table is fixed
by `epd_ssd1619_create` to the `ssd1619_*` functions below, so a call through
`dev->f` is a call of `ssd1619_f`. -/
structure epd_device_t where
  info : epd_info_t
  spi_dev : Option Nat
  pins : epd_pins_t
  priv : Option ssd1619_priv_t
  deriving DecidableEq, Repr

/-- A device pointer argument: `NULL` or the address of the device object. -/
inductive DevPtr where
  | null
  | valid
  deriving DecidableEq, Repr

/-! ## Bus transport, GPIO and timing: the trace -/

/-- One call into the layers below the driver. -/
inductive Event where
  /-- Call `epd_send_command(dev, cmd)`. -/
  | command (cmd : Nat)
  /-- Call `epd_send_data(dev, b)`. -/
  | data (b : Nat)
  /-- Call `epd_send_data_buffer(dev, p, n)`, with the `n` bytes read at `p`. -/
  | dataBuffer (bytes : List Nat)
  /-- Call `epd_is_busy(dev)` and the level it returned. -/
  | isBusy (level : Bool)
  /-- Call `vTaskDelay(ticks)`. -/
  | taskDelay (ticks : Nat)
  /-- Call `epd_delay_ms(ms)`. -/
  | delayMs (ms : Nat)
  /-- Call `gpio_set_direction(pin, mode)`; `output = false` is input mode. -/
  | gpioDirection (pin : Int) (output : Bool)
  /-- Call `gpio_set_level(pin, level)`. -/
  | gpioLevel (pin : Int) (level : Nat)
  /-- Call `epd_spi_init(dev, host, speed)`. -/
  | spiInit
  /-- Call `spi_bus_remove_device(handle)`. -/
  | spiRemove (handle : Nat)
  deriving DecidableEq, Repr

/-- What the hardware and the allocator answer. -/
structure Env where
  /-- Level of the busy input at the k-th poll (counted from 0). -/
  busy : Nat → Bool
  /-- Whether the k-th heap allocation (counted from 0) succeeds. -/
  alloc : Nat → Bool
  /-- Result of the k-th bus bring-up (counted from 0). -/
  spi_init : Nat → esp_err_t
  /-- The FreeRTOS constant `portTICK_PERIOD_MS`. -/
  portTICK_PERIOD_MS : Nat

/-- Machine state. -/
structure State where
  dev : epd_device_t
  trace : List Event
  polls : Nat
  allocs : Nat
  spiInits : Nat
  deriving DecidableEq, Repr

/-- Outcome of running a piece of driver code: it returned `val`, or it was
still polling the busy input when the fuel ran out (`hang`), or it accessed
memory outside the bytes a buffer holds (`fault`). -/
inductive Res (α : Type) where
  | ret (val : α) (s : State)
  | hang (s : State)
  | fault (s : State)
  deriving Repr

/-- Sequencing: continue only after a return. -/
def Res.bind {α β : Type} (r : Res α) (f : α → State → Res β) : Res β :=
  match r with
  | .ret a s => f a s
  | .hang s => .hang s
  | .fault s => .fault s

/-- The state an outcome ends in. -/
def Res.state {α : Type} (r : Res α) : State :=
  match r with
  | .ret _ s => s
  | .hang s => s
  | .fault s => s

/-- The returned value, when the code returned. -/
def Res.val? {α : Type} (r : Res α) : Option α :=
  match r with
  | .ret a _ => some a
  | .hang _ => none
  | .fault _ => none

/-! ## Integer conversions -/

/-- The low byte `i & 0xFF` of an `int` value, as passed to a `uint8_t` parameter. -/
def toU8 (i : Int) : Nat := (i % 256).toNat

/-- Conversion of an `int` value to `uint16_t`. -/
def toU16 (i : Int) : Nat := (i % 65536).toNat

/-- Conversion of an `int` value to `uint32_t`. -/
def toU32 (i : Int) : Nat := (i % 4294967296).toNat

/-- Result of 32-bit `int` arithmetic as the two's-complement targets of this
code compute it (the mathematical value reduced into `[-2^31, 2^31)`). -/
def toInt32 (i : Int) : Int := (i + 2147483648) % 4294967296 - 2147483648

/-- The expression `dev->info.width * dev->info.height / 8` used as a
`uint32_t` byte count: the two `uint16_t` operands are promoted to `int`,
multiplied, divided (truncating) by 8, and converted to `uint32_t`. -/
def frame_bytes (width height : Nat) : Nat :=
  toU32 (Int.tdiv (toInt32 ((width : Int) * (height : Int))) 8)

/-! ## Transport primitives -/

/-- Append events to the trace. -/
def State.push (s : State) (es : List Event) : State :=
  { s with trace := s.trace ++ es }

/-- The state after logging the events `es`, making `k` polls of the busy
input and `a` heap allocations. -/
def State.upd (s : State) (es : List Event) (k a : Nat) : State :=
  { s with trace := s.trace ++ es, polls := s.polls + k, allocs := s.allocs + a }

/-- Append one event to the trace. -/
def emit (e : Event) (s : State) : State := s.push [e]

/-- Modelled from the spec: `epd_send_command` is declared in `epd_common.h` but
its body is not part of the sources; it is the Bus Transport's "send command
byte", recorded as one trace event. -/
def epd_send_command (cmd : Nat) (s : State) : State := emit (.command cmd) s

/-- Modelled from the spec: `epd_send_data` is declared in `epd_common.h` but
its body is not part of the sources; it is the Bus Transport's "send data
byte", recorded as one trace event. -/
def epd_send_data (b : Nat) (s : State) : State := emit (.data b) s

/-- Modelled from the spec: `epd_delay_ms` is declared in `epd_common.h` but its
body is not part of the sources; it is a fixed-duration timing delay, recorded
as one trace event. -/
def epd_delay_ms (ms : Nat) (s : State) : State := emit (.delayMs ms) s

/-- The FreeRTOS call `vTaskDelay(ticks)`, recorded as one trace event. -/
def vTaskDelay (ticks : Nat) (s : State) : State := emit (.taskDelay ticks) s

/-- The bytes at `p + off .. p + off + len - 1` when `p` points to `buf`;
`none` when that range leaves the buffer. -/
def readBytes (buf : List Nat) (off len : Nat) : Option (List Nat) :=
  if off + len ≤ buf.length then some ((buf.drop off).take len) else none

/-- Modelled from the spec: `epd_send_data_buffer` is declared in `epd_common.h`
but its body is not part of the sources; it is the Bus Transport's "send data
bytes".  This is the call `epd_send_data_buffer(dev, p + off, len)` with `p`
pointing to `buf`: one trace event carrying the `len` bytes read. -/
def epd_send_data_buffer (buf : List Nat) (off len : Nat) (s : State) : Res Unit :=
  match readBytes buf off len with
  | some bytes => .ret () (emit (.dataBuffer bytes) s)
  | none => .fault s

/-- Modelled from the spec: `epd_is_busy` is declared in `epd_common.h` but its
body is not part of the sources; it is the Bus Transport's "read ready/busy
signal": one poll of the busy input, answered by the environment. -/
def epd_is_busy (env : Env) (s : State) : Bool × State :=
  let b := env.busy s.polls
  (b, { emit (.isBusy b) s with polls := s.polls + 1 })

/-- The loop `while (epd_is_busy(dev)) { vTaskDelay(ticks); }`, with at most
`fuel` polls. -/
def wait_while_busy (env : Env) (ticks : Nat) : Nat → State → Res Unit
  | 0, s => .hang s
  | fuel + 1, s =>
    match epd_is_busy env s with
    | (true, s1) => wait_while_busy env ticks fuel (vTaskDelay ticks s1)
    | (false, s1) => .ret () s1

/-- Modelled from the spec: `epd_spi_init` is declared in `epd_common.h` but its
body is not part of the sources; it is the bus bring-up ("bus probed") whose
failure `initialize` propagates.  It returns what the environment says and, on
success, stores a bus handle in the device. -/
def epd_spi_init (env : Env) (s : State) : esp_err_t × State :=
  let err := env.spi_init s.spiInits
  let s1 := { emit .spiInit s with spiInits := s.spiInits + 1 }
  if err = ESP_OK then
    (err, { s1 with dev := { s1.dev with spi_dev := some s.spiInits } })
  else (err, s1)

/-- One heap allocation (`malloc` / `calloc`): whether it succeeded. -/
def heap_alloc (env : Env) (s : State) : Bool × State :=
  (env.alloc s.allocs, { s with allocs := s.allocs + 1 })

/-! ## SSD1619 command bytes -/

def SSD1619_CMD_DRIVER_OUTPUT_CONTROL : Nat := 0x01
def SSD1619_CMD_DEEP_SLEEP : Nat := 0x10
def SSD1619_CMD_DATA_ENTRY_MODE : Nat := 0x11
def SSD1619_CMD_SW_RESET : Nat := 0x12
def SSD1619_CMD_TEMP_SENSOR : Nat := 0x1A
def SSD1619_CMD_MASTER_ACTIVATION : Nat := 0x20
def SSD1619_CMD_DISP_UPDATE_CTRL2 : Nat := 0x22
def SSD1619_CMD_WRITE_RAM_BW : Nat := 0x24
def SSD1619_CMD_WRITE_RAM_RED : Nat := 0x26
def SSD1619_CMD_BORDER_WAVEFORM : Nat := 0x3C
def SSD1619_CMD_RAM_X_START_END : Nat := 0x44
def SSD1619_CMD_RAM_Y_START_END : Nat := 0x45
def SSD1619_CMD_RAM_X_COUNTER : Nat := 0x4E
def SSD1619_CMD_RAM_Y_COUNTER : Nat := 0x4F

/-! ## The driver -/

/-- The device object `epd_ssd1619_create` fills in (both structures come
zeroed from `calloc`). -/
def new_device (pins : epd_pins_t) (width height : Nat) (color_mode : epd_color_mode_t) :
    epd_device_t :=
  { info :=
      { type := .EPD_SSD1619
        chip_name := "SSD1619"
        width := width
        height := height
        color_mode := color_mode
        capabilities := EPD_CAP_PARTIAL_REFRESH ||| EPD_CAP_POWER_CONTROL
        version := 0x0100 }
    spi_dev := none
    pins := pins
    priv := some
      { lut_full := List.replicate 30 0
        lut_partial := List.replicate 30 0
        rotation := 0
        initialized := false } }

/-- Function `epd_ssd1619_create(pins, width, height, color_mode)`; `none` is
the `NULL` returned when one of its two `calloc` calls fails.  `devOk` and
`privOk` say whether the first and the second allocation succeed. -/
def epd_ssd1619_create (devOk privOk : Bool) (pins : epd_pins_t)
    (width height : Nat) (color_mode : epd_color_mode_t) : Option epd_device_t :=
  if !devOk then none
  else if !privOk then none
  else some (new_device pins width height color_mode)

/-- Function `ssd1619_set_memory_area(dev, x_start, y_start, x_end, y_end)`. -/
def ssd1619_set_memory_area (x_start y_start x_end y_end : Nat) (s : State) : State :=
  let s := epd_send_command SSD1619_CMD_RAM_X_START_END s
  let s := epd_send_data ((x_start >>> 3) &&& 0xFF) s
  let s := epd_send_data ((x_end >>> 3) &&& 0xFF) s
  let s := epd_send_command SSD1619_CMD_RAM_Y_START_END s
  let s := epd_send_data (y_start &&& 0xFF) s
  let s := epd_send_data ((y_start >>> 8) &&& 0xFF) s
  let s := epd_send_data (y_end &&& 0xFF) s
  epd_send_data ((y_end >>> 8) &&& 0xFF) s

/-- Function `ssd1619_set_memory_pointer(dev, x, y)`. -/
def ssd1619_set_memory_pointer (x y : Nat) (s : State) : State :=
  let s := epd_send_command SSD1619_CMD_RAM_X_COUNTER s
  let s := epd_send_data ((x >>> 3) &&& 0xFF) s
  let s := epd_send_command SSD1619_CMD_RAM_Y_COUNTER s
  let s := epd_send_data (y &&& 0xFF) s
  epd_send_data ((y >>> 8) &&& 0xFF) s

/-- Function `ssd1619_reset(dev)`. -/
def ssd1619_reset (dev : DevPtr) (s : State) : Res esp_err_t :=
  match dev with
  | .null => .ret ESP_ERR_INVALID_ARG s
  | .valid =>
    let s := emit (.gpioLevel s.dev.pins.rst_pin 0) s
    let s := epd_delay_ms 10 s
    let s := emit (.gpioLevel s.dev.pins.rst_pin 1) s
    let s := epd_delay_ms 10 s
    let s := epd_delay_ms 100 s
    .ret ESP_OK s

/-- Function `ssd1619_send_init_sequence(dev)`. -/
def ssd1619_send_init_sequence (env : Env) (fuel : Nat) (s : State) : Res Unit :=
  let s := epd_send_command SSD1619_CMD_SW_RESET s
  let s := epd_delay_ms 10 s
  (wait_while_busy env 1 fuel s).bind fun _ s =>
  let s := epd_send_command SSD1619_CMD_DRIVER_OUTPUT_CONTROL s
  let s := epd_send_data (toU8 ((s.dev.info.height : Int) - 1)) s
  let s := epd_send_data (toU8 (((s.dev.info.height : Int) - 1) >>> 8)) s
  let s := epd_send_data 0x00 s
  let s := epd_send_command SSD1619_CMD_DATA_ENTRY_MODE s
  let s := epd_send_data 0x03 s
  let s := ssd1619_set_memory_area 0 0 (toU16 ((s.dev.info.width : Int) - 1))
    (toU16 ((s.dev.info.height : Int) - 1)) s
  let s := ssd1619_set_memory_pointer 0 0 s
  let s := epd_send_command SSD1619_CMD_BORDER_WAVEFORM s
  let s := epd_send_data 0x05 s
  let s := epd_send_command SSD1619_CMD_TEMP_SENSOR s
  let s := epd_send_data 0x80 s
  let s := epd_send_command SSD1619_CMD_DISP_UPDATE_CTRL2 s
  let s := epd_send_data 0xC0 s
  let s := epd_send_command SSD1619_CMD_MASTER_ACTIVATION s
  wait_while_busy env 1 fuel s

/-- The GPIO set-up block of `ssd1619_init`: data/command and reset pins as
outputs, busy pin as input, and the power-enable pin (when `pwr_en_pin >= 0`)
as an output driven high. -/
def init_gpio (s : State) : State :=
  let s := emit (.gpioDirection s.dev.pins.dc_pin true) s
  let s := emit (.gpioDirection s.dev.pins.rst_pin true) s
  let s := emit (.gpioDirection s.dev.pins.busy_pin false) s
  if s.dev.pins.pwr_en_pin ≥ 0 then
    let s := emit (.gpioDirection s.dev.pins.pwr_en_pin true) s
    emit (.gpioLevel s.dev.pins.pwr_en_pin 1) s
  else s

/-- The assignment `priv->initialized = true`. -/
def set_initialized (s : State) : State :=
  { s with dev := { s.dev with
      priv := s.dev.priv.map fun p => { p with initialized := true } } }

/-- Function `ssd1619_init(dev)`. -/
def ssd1619_init (env : Env) (fuel : Nat) (dev : DevPtr) (s : State) : Res esp_err_t :=
  match dev with
  | .null => .ret ESP_ERR_INVALID_ARG s
  | .valid =>
    match s.dev.priv with
    | none => .ret ESP_ERR_INVALID_ARG s
    | some _ =>
      match epd_spi_init env s with
      | (err, s) =>
        if err ≠ ESP_OK then .ret err s
        else
          let s := init_gpio s
          (ssd1619_reset .valid s).bind fun _ s =>
          (ssd1619_send_init_sequence env fuel s).bind fun _ s =>
          .ret ESP_OK (set_initialized s)

/-- Function `ssd1619_display_buffer(dev, buffer, mode)`. -/
def ssd1619_display_buffer (env : Env) (fuel : Nat) (dev : DevPtr)
    (buffer : Option (List Nat)) (mode : epd_update_mode_t) (s : State) : Res esp_err_t :=
  match dev, buffer with
  | .null, _ => .ret ESP_ERR_INVALID_ARG s
  | .valid, none => .ret ESP_ERR_INVALID_ARG s
  | .valid, some buf =>
    let s := ssd1619_set_memory_area 0 0 (toU16 ((s.dev.info.width : Int) - 1))
      (toU16 ((s.dev.info.height : Int) - 1)) s
    let s := ssd1619_set_memory_pointer 0 0 s
    let s := epd_send_command SSD1619_CMD_WRITE_RAM_BW s
    (epd_send_data_buffer buf 0 (frame_bytes s.dev.info.width s.dev.info.height) s).bind
    fun _ s =>
    (if s.dev.info.color_mode = epd_color_mode_t.EPD_MODE_3C then
      let buffer_size := frame_bytes s.dev.info.width s.dev.info.height
      match heap_alloc env s with
      | (true, s) =>
        let s := epd_send_command SSD1619_CMD_WRITE_RAM_RED s
        epd_send_data_buffer (List.replicate buffer_size 0) 0 buffer_size s
      | (false, s) => Res.ret () s
    else Res.ret () s).bind
    fun _ s =>
    let s := epd_send_command SSD1619_CMD_DISP_UPDATE_CTRL2 s
    let s :=
      match mode with
      | .EPD_UPDATE_FULL => epd_send_data 0xC7 s
      | .EPD_UPDATE_PARTIAL => epd_send_data 0x04 s
      | .EPD_UPDATE_FAST => epd_send_data 0x0C s
    let s := epd_send_command SSD1619_CMD_MASTER_ACTIVATION s
    (wait_while_busy env 10 fuel s).bind fun _ s =>
    .ret ESP_OK s

/-- Function `ssd1619_clear(dev, color)`. -/
def ssd1619_clear (env : Env) (fuel : Nat) (dev : DevPtr) (color : epd_color_t)
    (s : State) : Res esp_err_t :=
  match dev with
  | .null => .ret ESP_ERR_INVALID_ARG s
  | .valid =>
    match s.dev.priv with
    | none => .ret ESP_ERR_INVALID_ARG s
    | some _ =>
      let fill_value : Nat := if color = epd_color_t.EPD_COLOR_WHITE then 0xFF else 0x00
      let buffer_size := frame_bytes s.dev.info.width s.dev.info.height
      match heap_alloc env s with
      | (false, s) => .ret ESP_ERR_NO_MEM s
      | (true, s) =>
        let buffer := List.replicate buffer_size fill_value
        ssd1619_display_buffer env fuel .valid (some buffer) .EPD_UPDATE_FULL s

/-- The row loop of `ssd1619_display_partial`:
`for (row = ...; row < height; row++) epd_send_data_buffer(dev, buffer + row * bytes_per_line, bytes_per_line)`,
with `remaining` rows still to send, starting at `row`. -/
def send_rows (buf : List Nat) (bytes_per_line : Nat) : Nat → Nat → State → Res Unit
  | 0, _, s => .ret () s
  | remaining + 1, row, s =>
    (epd_send_data_buffer buf (row * bytes_per_line) bytes_per_line s).bind fun _ s =>
    send_rows buf bytes_per_line remaining (row + 1) s

/-- The value of `bytes_per_line` in `ssd1619_display_partial`:
`width / 8`, incremented when `width % 8` is not zero. -/
def bytes_per_line (width : Nat) : Nat :=
  if width % 8 ≠ 0 then toU16 (((width / 8 : Nat) : Int) + 1) else width / 8

/-- Function `ssd1619_display_partial(dev, buffer, x, y, width, height)`. -/
def ssd1619_display_partial (env : Env) (fuel : Nat) (dev : DevPtr)
    (buffer : Option (List Nat)) (x y width height : Nat) (s : State) : Res esp_err_t :=
  match dev, buffer with
  | .null, _ => .ret ESP_ERR_INVALID_ARG s
  | .valid, none => .ret ESP_ERR_INVALID_ARG s
  | .valid, some buf =>
    let x_start := x
    let x_end := toU16 ((x : Int) + (width : Int) - 1)
    let y_start := y
    let y_end := toU16 ((y : Int) + (height : Int) - 1)
    let s := ssd1619_set_memory_area x_start y_start x_end y_end s
    let s := ssd1619_set_memory_pointer x_start y_start s
    let s := epd_send_command SSD1619_CMD_WRITE_RAM_BW s
    (send_rows buf (bytes_per_line width) height 0 s).bind fun _ s =>
    let s := epd_send_command SSD1619_CMD_DISP_UPDATE_CTRL2 s
    let s := epd_send_data 0x04 s
    let s := epd_send_command SSD1619_CMD_MASTER_ACTIVATION s
    (wait_while_busy env 10 fuel s).bind fun _ s =>
    .ret ESP_OK s

/-- Function `ssd1619_sleep(dev)`. -/
def ssd1619_sleep (env : Env) (dev : DevPtr) (s : State) : Res esp_err_t :=
  match dev with
  | .null => .ret ESP_ERR_INVALID_ARG s
  | .valid =>
    let s := epd_send_command SSD1619_CMD_DEEP_SLEEP s
    let s := epd_send_data 0x01 s
    let s := vTaskDelay (100 / env.portTICK_PERIOD_MS) s
    .ret ESP_OK s

/-- Function `ssd1619_wakeup(dev)`: `dev->reset(dev); return dev->init(dev);`. -/
def ssd1619_wakeup (env : Env) (fuel : Nat) (dev : DevPtr) (s : State) : Res esp_err_t :=
  match dev with
  | .null => .ret ESP_ERR_INVALID_ARG s
  | .valid =>
    (ssd1619_reset .valid s).bind fun _ s =>
    ssd1619_init env fuel .valid s

/-- Function `ssd1619_power_on(dev)`. -/
def ssd1619_power_on (dev : DevPtr) (s : State) : Res esp_err_t :=
  ssd1619_reset dev s

/-- Function `ssd1619_power_off(dev)`. -/
def ssd1619_power_off (env : Env) (dev : DevPtr) (s : State) : Res esp_err_t :=
  ssd1619_sleep env dev s

/-- Function `ssd1619_set_rotation(dev, rotation)`; `rotation` is a `uint8_t`. -/
def ssd1619_set_rotation (dev : DevPtr) (rotation : Nat) (s : State) : Res esp_err_t :=
  match dev with
  | .null => .ret ESP_ERR_INVALID_ARG s
  | .valid =>
    match s.dev.priv with
    | none => .ret ESP_ERR_INVALID_ARG s
    | some priv =>
      let s := { s with dev := { s.dev with priv := some { priv with rotation := rotation % 4 } } }
      let s :=
        if rotation &&& 1 ≠ 0 then
          let temp := s.dev.info.width
          { s with dev := { s.dev with
              info := { s.dev.info with width := s.dev.info.height, height := temp } } }
        else s
      .ret ESP_OK s

/-- Function `ssd1619_invert(dev, invert)`: its body is `return ESP_OK;`. -/
def ssd1619_invert (_dev : DevPtr) (_invert : Bool) (s : State) : Res esp_err_t :=
  .ret ESP_OK s

/-- Function `ssd1619_get_info(dev, info)`.  `info` is what the out-parameter
points to (`none` for a null pointer); the value returned with the error code
is what it points to afterwards. -/
def ssd1619_get_info (dev : DevPtr) (info : Option epd_info_t) (s : State) :
    Res (esp_err_t × Option epd_info_t) :=
  match dev, info with
  | .null, _ => .ret (ESP_ERR_INVALID_ARG, info) s
  | .valid, none => .ret (ESP_ERR_INVALID_ARG, info) s
  | .valid, some _ => .ret (ESP_OK, some s.dev.info) s

/-- The block `if (dev->spi_dev) { spi_bus_remove_device(dev->spi_dev);
dev->spi_dev = NULL; }` of `ssd1619_deinit`. -/
def release_bus (s : State) : State :=
  match s.dev.spi_dev with
  | some handle => { emit (.spiRemove handle) s with dev := { s.dev with spi_dev := none } }
  | none => s

/-- The block `if (dev->priv) { free(dev->priv); dev->priv = NULL; }` of
`ssd1619_deinit`. -/
def release_priv (s : State) : State :=
  match s.dev.priv with
  | some _ => { s with dev := { s.dev with priv := none } }
  | none => s

/-- Function `ssd1619_deinit(dev)`. -/
def ssd1619_deinit (env : Env) (dev : DevPtr) (s : State) : Res esp_err_t :=
  match dev with
  | .null => .ret ESP_ERR_INVALID_ARG s
  | .valid =>
    (ssd1619_sleep env .valid s).bind fun _ s =>
    let s := release_bus s
    let s := release_priv s
    .ret ESP_OK s

/-! ## The harness (`main.c`) -/

/-- The pin table `g_epd_pins` of `main.c`. -/
def g_epd_pins : epd_pins_t :=
  { spi_miso := -1, spi_mosi := 23, spi_clk := 18, spi_cs := 5
    dc_pin := 19, rst_pin := 21, busy_pin := 22, pwr_en_pin := -1 }

/-- The statement `buffer[idx] &= ~bit` of `test_partial_refresh` for row `i`
and column `j`, with `idx = i * (width / 8) + (j / 8)` and
`bit = 0x80 >> (j % 8)`; `none` when `idx` is outside the buffer. -/
def clear_pixel (width : Nat) (buf : List Nat) (i j : Nat) : Option (List Nat) :=
  let idx := i * (width / 8) + j / 8
  let bit := 0x80 >>> (j % 8)
  if idx < buf.length then some (buf.set idx (buf.getD idx 0 &&& (0xFF ^^^ bit))) else none

/-- The two nested loops of `test_partial_refresh` that paint the block
`[x, x + w) × [y, y + h)` black. -/
def draw_block (width : Nat) (buf : List Nat) (x y w h : Nat) : Option (List Nat) :=
  (List.range' y h).foldlM
    (fun b i => (List.range' x w).foldlM (fun b j => clear_pixel width b i j) b) buf

/-- Function `test_partial_refresh(epd, result)` of `main.c`; the value is
the `bool` it returns (the message it stores in `result` is not modelled). -/
def test_partial_refresh (env : Env) (fuel : Nat) (s : State) : Res Bool :=
  if s.dev.info.capabilities &&& EPD_CAP_PARTIAL_REFRESH = 0 then .ret true s
  else
    match heap_alloc env s with
    | (false, s) => .ret false s
    | (true, s) =>
      let buffer := List.replicate (frame_bytes s.dev.info.width s.dev.info.height) 0xFF
      (ssd1619_display_buffer env fuel .valid (some buffer) .EPD_UPDATE_FULL s).bind fun _ s =>
      let s := vTaskDelay (500 / env.portTICK_PERIOD_MS) s
      let x := s.dev.info.width / 4
      let y := s.dev.info.height / 4
      let w := s.dev.info.width / 2
      let h := s.dev.info.height / 2
      match draw_block s.dev.info.width buffer x y w h with
      | none => .fault s
      | some buffer =>
        ( ssd1619_display_partial env fuel .valid (some buffer) x y w h s).bind fun err s =>
        if err ≠ ESP_OK then .ret false s
        else .ret true (vTaskDelay (1000 / env.portTICK_PERIOD_MS) s)

/-- The 100-byte `test_buffer` of `test_sleep_wakeup`: 50 bytes `0x00`, then
50 bytes `0xFF`. -/
def test_buffer : List Nat := List.replicate 50 0x00 ++ List.replicate 50 0xFF

/-! ## The pattern generators (`test_patterns.c`) -/

/-- The byte index `y * (dev->info.width / 8) + (x / 8)` the pattern
generators and the harness compute for pixel `(x, y)`. -/
def byte_idx (width x y : Nat) : Nat := y * (width / 8) + x / 8

/-- The bit mask `0x80 >> (x % 8)` the pattern generators and the harness
compute for pixel `(x, y)`. -/
def bit_mask (x : Nat) : Nat := 0x80 >>> (x % 8)

/-- The body of the pixel loops of `test_checkerboard_pattern` for pixel
`(x, y)`: `buffer[byte_idx] &= ~bit_mask` for a black pixel,
`buffer[byte_idx] |= bit_mask` for a white one.  `none` when `block_size` is 0
(division by zero) or `byte_idx` is outside the buffer. -/
def checker_pixel (width block_size : Nat) (buf : List Nat) (x y : Nat) :
    Option (List Nat) :=
  if block_size = 0 then none
  else
    let is_black := ((x / block_size) + (y / block_size)) % 2 == 0
    if byte_idx width x y < buf.length then
      if is_black then
        some (buf.set (byte_idx width x y)
          (buf.getD (byte_idx width x y) 0 &&& (0xFF ^^^ bit_mask x)))
      else
        some (buf.set (byte_idx width x y) (buf.getD (byte_idx width x y) 0 ||| bit_mask x))
    else none

/-- The two nested loops of `test_checkerboard_pattern`: rows `y` from 0 to
`height - 1`, in each row columns `x` from 0 to `width - 1`. -/
def checker_fill (width height block_size : Nat) (buf : List Nat) : Option (List Nat) :=
  (List.range height).foldlM
    (fun b y => (List.range width).foldlM
      (fun b x => checker_pixel width block_size b x y) b) buf

/-- Function `test_checkerboard_pattern(dev, block_size)`.  `garbage i` is the
byte the freshly allocated, uninitialised buffer holds at index `i`. -/
def test_checkerboard_pattern (env : Env) (fuel : Nat) (dev : DevPtr) (block_size : Nat)
    (garbage : Nat → Nat) (s : State) : Res esp_err_t :=
  match dev with
  | .null => .ret ESP_ERR_INVALID_ARG s
  | .valid =>
    let buffer_size := frame_bytes s.dev.info.width s.dev.info.height
    match heap_alloc env s with
    | (false, s) => .ret ESP_ERR_NO_MEM s
    | (true, s) =>
      let buffer := (List.range buffer_size).map garbage
      match checker_fill s.dev.info.width s.dev.info.height block_size buffer with
      | none => .fault s
      | some buffer =>
        ssd1619_display_buffer env fuel .valid (some buffer) .EPD_UPDATE_FULL s

/-- The table `patterns[8]` of `test_gradient_pattern`. -/
def gradient_patterns : List Nat := [0x00, 0x11, 0x22, 0x44, 0x88, 0xAA, 0xDD, 0xFF]

/-- The innermost loop of `test_gradient_pattern`: `buffer[byte_idx] = value`
for `x_byte` from 0 to `width / 8 - 1` in row `row`; `none` when an index is
outside the buffer. -/
def gradient_row (width value row : Nat) (buf : List Nat) : Option (List Nat) :=
  (List.range (width / 8)).foldlM
    (fun b x_byte =>
      let idx := row * (width / 8) + x_byte
      if idx < b.length then some (b.set idx value) else none) buf

/-- The `y` loop of `test_gradient_pattern` for one `pattern_idx`, with
`remaining` iterations left from `y` on; it breaks when
`pattern_idx * block_height + y >= height`. -/
def gradient_rows (width height block_height pattern_idx value : Nat) :
    Nat → Nat → List Nat → Option (List Nat)
  | 0, _, b => some b
  | remaining + 1, y, b =>
    if pattern_idx * block_height + y ≥ height then some b
    else
      match gradient_row width value (pattern_idx * block_height + y) b with
      | none => none
      | some b1 => gradient_rows width height block_height pattern_idx value remaining (y + 1) b1

/-- The loop of `test_gradient_pattern` over the eight patterns. -/
def gradient_fill (width height : Nat) (buf : List Nat) : Option (List Nat) :=
  (List.range 8).foldlM
    (fun b pattern_idx =>
      gradient_rows width height (height / 8) pattern_idx
        (gradient_patterns.getD pattern_idx 0) (height / 8) 0 b) buf

/-- Function `test_gradient_pattern(dev)`.  `garbage i` is the byte the freshly
allocated, uninitialised buffer holds at index `i`. -/
def test_gradient_pattern (env : Env) (fuel : Nat) (dev : DevPtr)
    (garbage : Nat → Nat) (s : State) : Res esp_err_t :=
  match dev with
  | .null => .ret ESP_ERR_INVALID_ARG s
  | .valid =>
    let buffer_size := frame_bytes s.dev.info.width s.dev.info.height
    match heap_alloc env s with
    | (false, s) => .ret ESP_ERR_NO_MEM s
    | (true, s) =>
      let buffer := (List.range buffer_size).map garbage
      match gradient_fill s.dev.info.width s.dev.info.height buffer with
      | none => .fault s
      | some buffer =>
        ssd1619_display_buffer env fuel .valid (some buffer) .EPD_UPDATE_FULL s

/-! ## Concrete runs -/

/-- A controller that is never busy, a heap that never fails, a bus that
comes up. -/
def idle_env : Env :=
  { busy := fun _ => false, alloc := fun _ => true, spi_init := fun _ => ESP_OK
    portTICK_PERIOD_MS := 1 }

/-- The machine right after `epd_ssd1619_create` returned device `d`. -/
def boot (d : epd_device_t) : State :=
  { dev := d, trace := [], polls := 0, allocs := 2, spiInits := 0 }

/-- The 296 x 128 monochrome device of the end-to-end scenario, initialized. -/
def panel_296x128 : State :=
  (ssd1619_init idle_env 1 .valid
    (boot (new_device g_epd_pins 296 128 .EPD_MODE_1C))).state

/-- The generic failure code `ESP_FAIL` (`-1`). -/
def ESP_FAIL : esp_err_t := -1

/-- Like `idle_env`, but the bus never comes up. -/
def dead_bus_env : Env :=
  { busy := fun _ => false, alloc := fun _ => true, spi_init := fun _ => ESP_FAIL
    portTICK_PERIOD_MS := 1 }

/-- Like `idle_env`, but the busy input reads busy for ever. -/
def stuck_env : Env :=
  { busy := fun _ => true, alloc := fun _ => true, spi_init := fun _ => ESP_OK
    portTICK_PERIOD_MS := 1 }

/-- A controller that answers the first poll (the one after the software
reset), then holds its busy output high forever. -/
def hung_refresh_env : Env :=
  { busy := fun i => decide (1 ≤ i), alloc := fun _ => true, spi_init := fun _ => ESP_OK
    portTICK_PERIOD_MS := 1 }

/-- Like `idle_env`, but every heap allocation fails. -/
def no_heap_env : Env :=
  { busy := fun _ => false, alloc := fun _ => false, spi_init := fun _ => ESP_OK
    portTICK_PERIOD_MS := 1 }

/-- The wake-up of the specification: perform `reset`, then `initialize` in
the state `reset` left; the outcome is that of `initialize`. -/
def wakeup_spec (env : Env) (fuel : Nat) (s : State) : Res esp_err_t :=
  ssd1619_init env fuel .valid (ssd1619_reset .valid s).state

/-- State `s` with the capability flags of its device replaced by `c`. -/
def with_capabilities (s : State) (c : Nat) : State :=
  { s with dev := { s.dev with info := { s.dev.info with capabilities := c } } }

/-! ## Descriptions of traces -/

/-- The window and cursor programming as the specification words it: X start
and end as `x >> 3`, Y start and end rows unshifted (low byte, high byte),
then the cursor at the window origin. -/
def window_spec (x_start y_start x_end y_end : Nat) : List Event :=
  [.command 0x44, .data (x_start >>> 3), .data (x_end >>> 3),
   .command 0x45, .data (y_start % 256), .data (y_start / 256),
   .data (y_end % 256), .data (y_end / 256),
   .command 0x4E, .data (x_start >>> 3),
   .command 0x4F, .data (y_start % 256), .data (y_start / 256)]


/-- The busy input reads busy at the first `n` polls made from poll number
`start` on, and not busy at the next one. -/
def ReadyAt (env : Env) (start n : Nat) : Prop :=
  (∀ i, i < n → env.busy (start + i) = true) ∧ env.busy (start + n) = false

/-- Trace of a busy-wait loop that sees busy `n` times and then not busy. -/
def poll_events (ticks : Nat) : Nat → List Event
  | 0 => [.isBusy false]
  | n + 1 => .isBusy true :: .taskDelay ticks :: poll_events ticks n

/-- An event of a busy-wait loop: a poll of the busy input or the yield
between two polls. -/
def Event.isPoll (ticks : Nat) (e : Event) : Prop :=
  (∃ b, e = .isBusy b) ∨ e = .taskDelay ticks

/-- The RAM-X-range and RAM-Y-range commands with their data bytes. -/
def window_events (x_start y_start x_end y_end : Nat) : List Event :=
  [.command 0x44, .data ((x_start >>> 3) &&& 0xFF), .data ((x_end >>> 3) &&& 0xFF),
   .command 0x45, .data (y_start &&& 0xFF), .data ((y_start >>> 8) &&& 0xFF),
   .data (y_end &&& 0xFF), .data ((y_end >>> 8) &&& 0xFF)]

/-- The RAM-X-counter and RAM-Y-counter commands with their data bytes. -/
def cursor_events (x y : Nat) : List Event :=
  [.command 0x4E, .data ((x >>> 3) &&& 0xFF),
   .command 0x4F, .data (y &&& 0xFF), .data ((y >>> 8) &&& 0xFF)]

/-- The refresh trigger lookup of the specification: `Full`, `Partial` and
`Fast` each select one payload byte of update-control-2. -/
def trigger_byte : epd_update_mode_t → Nat
  | .EPD_UPDATE_FULL => 0xC7
  | .EPD_UPDATE_PARTIAL => 0x04
  | .EPD_UPDATE_FAST => 0x0C

/-- The secondary-plane part of the trace of `ssd1619_display_buffer`. -/
def red_events (color_mode : epd_color_mode_t) (allocOk : Bool) (n : Nat) : List Event :=
  if color_mode = epd_color_mode_t.EPD_MODE_3C ∧ allocOk = true then
    [.command 0x26, .dataBuffer (List.replicate n 0)]
  else []

/-- Everything `ssd1619_display_buffer` sends before it starts polling. -/
def display_buffer_events (d : epd_device_t) (allocOk : Bool) (buf : List Nat)
    (mode : epd_update_mode_t) : List Event :=
  window_events 0 0 (toU16 ((d.info.width : Int) - 1)) (toU16 ((d.info.height : Int) - 1))
    ++ cursor_events 0 0
    ++ [.command 0x24, .dataBuffer (buf.take (frame_bytes d.info.width d.info.height))]
    ++ red_events d.info.color_mode allocOk (frame_bytes d.info.width d.info.height)
    ++ [.command 0x22, .data (trigger_byte mode), .command 0x20]

/-- Number of heap allocations `ssd1619_display_buffer` makes. -/
def display_buffer_allocs (d : epd_device_t) : Nat :=
  if d.info.color_mode = epd_color_mode_t.EPD_MODE_3C then 1 else 0

/-- The state in which `ssd1619_display_buffer` returns after `n` busy polls
that read busy. -/
def display_buffer_final (env : Env) (buf : List Nat) (mode : epd_update_mode_t)
    (s : State) (n : Nat) : State :=
  s.upd (display_buffer_events s.dev (env.alloc s.allocs) buf mode ++ poll_events 10 n)
    (n + 1) (display_buffer_allocs s.dev)

/-- Trace of the row loop of `ssd1619_display_partial`. -/
def row_events (buf : List Nat) (bpl : Nat) : Nat → Nat → List Event
  | 0, _ => []
  | remaining + 1, row =>
    .dataBuffer ((buf.drop (row * bpl)).take bpl) :: row_events buf bpl remaining (row + 1)

/-- The plane bytes a trace streams: the contents of its data-buffer transfers,
in order. -/
def plane_bytes : List Event → List Nat
  | [] => []
  | .dataBuffer bytes :: es => bytes ++ plane_bytes es
  | _ :: es => plane_bytes es

/-- Everything `ssd1619_display_partial` sends before it starts polling. -/
def display_partial_events (buf : List Nat) (x y width height : Nat) : List Event :=
  window_events x y (toU16 ((x : Int) + (width : Int) - 1))
      (toU16 ((y : Int) + (height : Int) - 1))
    ++ cursor_events x y
    ++ [.command 0x24]
    ++ row_events buf (bytes_per_line width) height 0
    ++ [.command 0x22, .data 0x04, .command 0x20]

/-- Trace of the reset pulse of `ssd1619_reset`. -/
def reset_events (pins : epd_pins_t) : List Event :=
  [.gpioLevel pins.rst_pin 0, .delayMs 10, .gpioLevel pins.rst_pin 1, .delayMs 10,
   .delayMs 100]

/-- Trace of the GPIO set-up block of `ssd1619_init`. -/
def gpio_events (pins : epd_pins_t) : List Event :=
  [.gpioDirection pins.dc_pin true, .gpioDirection pins.rst_pin true,
   .gpioDirection pins.busy_pin false]
    ++ (if pins.pwr_en_pin ≥ 0 then
          [.gpioDirection pins.pwr_en_pin true, .gpioLevel pins.pwr_en_pin 1]
        else [])

/-- Trace of `ssd1619_send_init_sequence` on a `width` x `height` device
whose busy input reads busy `n1` times in the first wait and `n2` times in the
second. -/
def init_sequence_events (width height n1 n2 : Nat) : List Event :=
  [.command 0x12, .delayMs 10] ++ poll_events 1 n1
    ++ [.command 0x01, .data (toU8 ((height : Int) - 1)),
        .data (toU8 (((height : Int) - 1) >>> 8)), .data 0x00,
        .command 0x11, .data 0x03]
    ++ window_events 0 0 (toU16 ((width : Int) - 1)) (toU16 ((height : Int) - 1))
    ++ cursor_events 0 0
    ++ [.command 0x3C, .data 0x05, .command 0x1A, .data 0x80,
        .command 0x22, .data 0xC0, .command 0x20]
    ++ poll_events 1 n2

/-- Trace of a successful `ssd1619_init`: bus bring-up, GPIO set-up, reset
pulse, init sequence. -/
def init_events (d : epd_device_t) (n1 n2 : Nat) : List Event :=
  [.spiInit] ++ gpio_events d.pins ++ reset_events d.pins
    ++ init_sequence_events d.info.width d.info.height n1 n2

/-- The state in which a successful `ssd1619_init` returns. -/
def init_final (s : State) (n1 n2 : Nat) : State :=
  { dev := { s.dev with
      spi_dev := some s.spiInits
      priv := s.dev.priv.map fun p => { p with initialized := true } }
    trace := s.trace ++ init_events s.dev n1 n2
    polls := s.polls + ((n1 + 1) + (n2 + 1))
    allocs := s.allocs
    spiInits := s.spiInits + 1 }

/-- The state after a successful bus bring-up. -/
def spi_up (s : State) : State :=
  { dev := { s.dev with spi_dev := some s.spiInits }
    trace := s.trace ++ [.spiInit]
    polls := s.polls
    allocs := s.allocs
    spiInits := s.spiInits + 1 }

/-- Trace of a busy-wait loop that saw busy at each of its `k` polls. -/
def busy_events (ticks : Nat) : Nat → List Event
  | 0 => []
  | k + 1 => .isBusy true :: .taskDelay ticks :: busy_events ticks k

/-- What `ssd1619_send_init_sequence` sends up to and including master
activation, on a `width` x `height` device whose busy input reads busy `n1`
times in the first wait. -/
def init_sequence_start (width height n1 : Nat) : List Event :=
  [.command 0x12, .delayMs 10] ++ poll_events 1 n1
    ++ [.command 0x01, .data (toU8 ((height : Int) - 1)),
        .data (toU8 (((height : Int) - 1) >>> 8)), .data 0x00,
        .command 0x11, .data 0x03]
    ++ window_events 0 0 (toU16 ((width : Int) - 1)) (toU16 ((height : Int) - 1))
    ++ cursor_events 0 0
    ++ [.command 0x3C, .data 0x05, .command 0x1A, .data 0x80,
        .command 0x22, .data 0xC0, .command 0x20]

/-- State `t` is reached from `s` by logging events, polling and allocating
only: the device object is untouched and the trace only grows. -/
def Reaches (s t : State) : Prop := ∃ es k a, t = s.upd es k a

/-! ## Lemmas on the primitives -/

@[simp] theorem upd_dev (s : State) (es : List Event) (k a : Nat) :
    (s.upd es k a).dev = s.dev := rfl
@[simp] theorem upd_trace (s : State) (es : List Event) (k a : Nat) :
    (s.upd es k a).trace = s.trace ++ es := rfl
@[simp] theorem upd_polls (s : State) (es : List Event) (k a : Nat) :
    (s.upd es k a).polls = s.polls + k := rfl
@[simp] theorem upd_allocs (s : State) (es : List Event) (k a : Nat) :
    (s.upd es k a).allocs = s.allocs + a := rfl
@[simp] theorem upd_spiInits (s : State) (es : List Event) (k a : Nat) :
    (s.upd es k a).spiInits = s.spiInits := rfl

theorem state_eq (s t : State) (h1 : s.dev = t.dev) (h2 : s.trace = t.trace)
    (h3 : s.polls = t.polls) (h4 : s.allocs = t.allocs) (h5 : s.spiInits = t.spiInits) :
    s = t := by
  cases s; cases t; simp_all

@[simp] theorem upd_upd (s : State) (e1 e2 : List Event) (k1 k2 a1 a2 : Nat) :
    (s.upd e1 k1 a1).upd e2 k2 a2 = s.upd (e1 ++ e2) (k1 + k2) (a1 + a2) := by
  apply state_eq <;> simp [List.append_assoc, Nat.add_assoc]

theorem push_eq (s : State) (es : List Event) : s.push es = s.upd es 0 0 := rfl

theorem emit_eq (e : Event) (s : State) : emit e s = s.upd [e] 0 0 := rfl

theorem upd_nil (s : State) : s.upd [] 0 0 = s := by
  apply state_eq <;> simp

theorem heap_alloc_eq (env : Env) (s : State) :
    heap_alloc env s = (env.alloc s.allocs, s.upd [] 0 1) := by
  unfold heap_alloc
  congr 1
  apply state_eq <;> simp

theorem is_busy_eq (env : Env) (s : State) :
    epd_is_busy env s = (env.busy s.polls, s.upd [.isBusy (env.busy s.polls)] 1 0) := by
  unfold epd_is_busy
  congr 1

theorem wait_while_busy_ret (env : Env) (ticks : Nat) :
    ∀ (n fuel : Nat) (s : State), ReadyAt env s.polls n → n < fuel →
      wait_while_busy env ticks fuel s = .ret () (s.upd (poll_events ticks n) (n + 1) 0) := by
  intro n
  induction n with
  | zero =>
    intro fuel s h hf
    obtain ⟨_, h0⟩ := h
    cases fuel with
    | zero => omega
    | succ f =>
      simp only [Nat.add_zero] at h0
      simp only [wait_while_busy, is_busy_eq, h0, poll_events]
  | succ n ih =>
    intro fuel s h hf
    obtain ⟨hb, h0⟩ := h
    cases fuel with
    | zero => omega
    | succ f =>
      have hs : env.busy s.polls = true := by simpa using hb 0 (Nat.succ_pos n)
      have hr : ReadyAt env (s.upd [.isBusy true, .taskDelay ticks] 1 0).polls n := by
        refine ⟨fun i hi => ?_, ?_⟩
        · have := hb (i + 1) (by omega)
          simpa [Nat.add_assoc, Nat.add_comm 1 i] using this
        · simpa [Nat.add_assoc, Nat.add_comm 1 n] using h0
      simp only [wait_while_busy, is_busy_eq, hs, vTaskDelay, emit_eq, upd_upd]
      rw [show ([Event.isBusy true] ++ [Event.taskDelay ticks]) =
        [Event.isBusy true, Event.taskDelay ticks] from rfl, ih f _ hr (by omega)]
      congr 1
      apply state_eq
      · rfl
      · simp [poll_events]
      · simp only [upd_polls]; omega
      · simp
      · rfl

/-- Busy-wait started in a state reached from `s` by `upd`. -/
theorem wait_upd (env : Env) (ticks n fuel : Nat) (s : State) (es : List Event) (k a : Nat)
    (hr : ReadyAt env (s.polls + k) n) (hf : n < fuel) :
    wait_while_busy env ticks fuel (s.upd es k a) =
      .ret () (s.upd (es ++ poll_events ticks n) (k + (n + 1)) a) := by
  rw [wait_while_busy_ret env ticks n fuel (s.upd es k a) hr hf, upd_upd]
  rfl

theorem wait_while_busy_state (env : Env) (ticks : Nat) :
    ∀ (fuel : Nat) (s : State), ∃ post k,
      (wait_while_busy env ticks fuel s).state = s.upd post k 0
        ∧ ∀ e, e ∈ post → Event.isPoll ticks e := by
  intro fuel
  induction fuel with
  | zero =>
    intro s
    exact ⟨[], 0, by simp [wait_while_busy, Res.state, upd_nil], by simp⟩
  | succ f ih =>
    intro s
    cases hb : env.busy s.polls with
    | false =>
      refine ⟨[.isBusy false], 1, ?_, ?_⟩
      · simp only [wait_while_busy, is_busy_eq, hb, Res.state]
      · intro e he
        simp only [List.mem_singleton] at he
        exact Or.inl ⟨false, he⟩
    | true =>
      obtain ⟨post, k, h1, h4⟩ := ih (s.upd [.isBusy true, .taskDelay ticks] 1 0)
      refine ⟨.isBusy true :: .taskDelay ticks :: post, 1 + k, ?_, ?_⟩
      · simp only [wait_while_busy, is_busy_eq, hb, vTaskDelay, emit_eq, upd_upd]
        rw [show ([Event.isBusy true] ++ [Event.taskDelay ticks]) =
          [Event.isBusy true, Event.taskDelay ticks] from rfl, h1, upd_upd]
        rfl
      · intro e he
        simp only [List.mem_cons] at he
        rcases he with he | he | he
        · exact Or.inl ⟨true, he⟩
        · exact Or.inr he
        · exact h4 e he

theorem set_memory_area_eq (x0 y0 x1 y1 : Nat) (s : State) :
    ssd1619_set_memory_area x0 y0 x1 y1 s = s.upd (window_events x0 y0 x1 y1) 0 0 := by
  simp only [ssd1619_set_memory_area, epd_send_command, epd_send_data, emit_eq, upd_upd]
  rfl

theorem set_memory_pointer_eq (x y : Nat) (s : State) :
    ssd1619_set_memory_pointer x y s = s.upd (cursor_events x y) 0 0 := by
  simp only [ssd1619_set_memory_pointer, epd_send_command, epd_send_data, emit_eq, upd_upd]
  rfl

theorem send_data_buffer_zero (buf : List Nat) (len : Nat) (s : State)
    (h : len ≤ buf.length) :
    epd_send_data_buffer buf 0 len s = .ret () (s.upd [.dataBuffer (buf.take len)] 0 0) := by
  simp [epd_send_data_buffer, readBytes, h, emit_eq]

theorem send_data_buffer_replicate (n v : Nat) (s : State) :
    epd_send_data_buffer (List.replicate n v) 0 n s =
      .ret () (s.upd [.dataBuffer (List.replicate n v)] 0 0) := by
  simp [epd_send_data_buffer, readBytes, emit_eq]

/-! ## The full-frame paint -/

theorem ret_bind {α β : Type} (a : α) (s : State) (f : α → State → Res β) :
    (Res.ret a s).bind f = f a s := rfl

theorem bind_ret_state {α β : Type} (r : Res α) (v : β) :
    (r.bind fun _ s => Res.ret v s).state = r.state := by
  cases r <;> rfl

/-- With a buffer that holds the bytes it reads, `ssd1619_display_buffer` sends
its whole command sequence and then busy-waits. -/
theorem display_buffer_eq (env : Env) (fuel : Nat) (buf : List Nat)
    (mode : epd_update_mode_t) (s : State)
    (hlen : frame_bytes s.dev.info.width s.dev.info.height ≤ buf.length) :
    ssd1619_display_buffer env fuel .valid (some buf) mode s =
      (wait_while_busy env 10 fuel
        (s.upd (display_buffer_events s.dev (env.alloc s.allocs) buf mode) 0
          (display_buffer_allocs s.dev))).bind fun _ s => .ret ESP_OK s := by
  unfold ssd1619_display_buffer
  simp only [set_memory_area_eq, set_memory_pointer_eq, epd_send_command, epd_send_data,
    emit_eq, upd_upd, upd_dev]
  rw [send_data_buffer_zero _ _ _ hlen]
  simp only [ret_bind, heap_alloc_eq, upd_dev, upd_allocs, upd_upd]
  by_cases hc : s.dev.info.color_mode = epd_color_mode_t.EPD_MODE_3C
  · cases ha : env.alloc s.allocs
    · simp only [hc, ha, if_true, ret_bind, Nat.add_zero]
      cases mode <;>
      · simp only [upd_upd]
        congr 2
        apply state_eq <;>
          simp [display_buffer_events, red_events, hc, display_buffer_allocs, trigger_byte,
            SSD1619_CMD_WRITE_RAM_BW, SSD1619_CMD_DISP_UPDATE_CTRL2,
            SSD1619_CMD_MASTER_ACTIVATION, SSD1619_CMD_WRITE_RAM_RED]
    · simp only [hc, ha, if_true, ret_bind, Nat.add_zero, upd_dev, upd_upd,
        send_data_buffer_replicate]
      cases mode <;>
      · simp only [upd_upd]
        congr 2
        apply state_eq <;>
          simp [display_buffer_events, red_events, hc, display_buffer_allocs, trigger_byte,
            SSD1619_CMD_WRITE_RAM_BW, SSD1619_CMD_DISP_UPDATE_CTRL2,
            SSD1619_CMD_MASTER_ACTIVATION, SSD1619_CMD_WRITE_RAM_RED]
  · simp only [hc, if_false, ret_bind]
    cases mode <;>
    · simp only [upd_upd]
      congr 2
      apply state_eq <;>
        simp [display_buffer_events, red_events, hc, display_buffer_allocs, trigger_byte,
          SSD1619_CMD_WRITE_RAM_BW, SSD1619_CMD_DISP_UPDATE_CTRL2,
          SSD1619_CMD_MASTER_ACTIVATION, SSD1619_CMD_WRITE_RAM_RED]

theorem display_buffer_ret (env : Env) (fuel : Nat) (buf : List Nat)
    (mode : epd_update_mode_t) (s : State) (n : Nat)
    (hlen : frame_bytes s.dev.info.width s.dev.info.height ≤ buf.length)
    (hr : ReadyAt env s.polls n) (hf : n < fuel) :
    ssd1619_display_buffer env fuel .valid (some buf) mode s =
      .ret ESP_OK (display_buffer_final env buf mode s n) := by
  have hr0 : ReadyAt env (s.polls + 0) n := hr
  rw [display_buffer_eq env fuel buf mode s hlen, wait_upd env 10 n fuel s _ _ _ hr0 hf,
    ret_bind, display_buffer_final, Nat.zero_add]

/-- Whatever the busy input does, a full-frame paint with a long enough buffer
sends its whole command sequence and then only polls. -/
theorem display_buffer_state (env : Env) (fuel : Nat) (buf : List Nat)
    (mode : epd_update_mode_t) (s : State)
    (hlen : frame_bytes s.dev.info.width s.dev.info.height ≤ buf.length) :
    ∃ post k, (ssd1619_display_buffer env fuel .valid (some buf) mode s).state =
        s.upd (display_buffer_events s.dev (env.alloc s.allocs) buf mode ++ post) k
          (display_buffer_allocs s.dev)
      ∧ ∀ e, e ∈ post → Event.isPoll 10 e := by
  obtain ⟨post, k, h, hp⟩ := wait_while_busy_state env 10 fuel
    (s.upd (display_buffer_events s.dev (env.alloc s.allocs) buf mode) 0
      (display_buffer_allocs s.dev))
  refine ⟨post, k, ?_, hp⟩
  rw [display_buffer_eq env fuel buf mode s hlen, bind_ret_state, h, upd_upd, Nat.zero_add,
    Nat.add_zero]

/-! ## Frame lemmas -/

theorem reaches_refl (s : State) : Reaches s s := ⟨[], 0, 0, (upd_nil s).symm⟩

theorem reaches_upd (s : State) (es : List Event) (k a : Nat) : Reaches s (s.upd es k a) :=
  ⟨es, k, a, rfl⟩

theorem reaches_trans {s t u : State} (h1 : Reaches s t) (h2 : Reaches t u) : Reaches s u := by
  obtain ⟨e1, k1, a1, rfl⟩ := h1
  obtain ⟨e2, k2, a2, rfl⟩ := h2
  exact ⟨e1 ++ e2, k1 + k2, a1 + a2, upd_upd _ _ _ _ _ _ _⟩

theorem reaches_dev {s t : State} (h : Reaches s t) : t.dev = s.dev := by
  obtain ⟨es, k, a, rfl⟩ := h
  rfl

theorem reaches_trace {s t : State} (h : Reaches s t) : ∃ es, t.trace = s.trace ++ es := by
  obtain ⟨es, k, a, rfl⟩ := h
  exact ⟨es, rfl⟩

theorem bind_reaches {α β : Type} {r : Res α} {f : α → State → Res β} {s : State}
    (h1 : Reaches s r.state) (h2 : ∀ a s1, Reaches s1 (f a s1).state) :
    Reaches s (r.bind f).state := by
  cases r with
  | ret a s1 => exact reaches_trans h1 (h2 a s1)
  | hang s1 => exact h1
  | fault s1 => exact h1

theorem wait_reaches (env : Env) (ticks fuel : Nat) (s : State) :
    Reaches s (wait_while_busy env ticks fuel s).state := by
  obtain ⟨post, k, h, _⟩ := wait_while_busy_state env ticks fuel s
  exact ⟨post, k, 0, h⟩

theorem send_data_buffer_reaches (buf : List Nat) (off len : Nat) (s : State) :
    Reaches s (epd_send_data_buffer buf off len s).state := by
  unfold epd_send_data_buffer
  cases readBytes buf off len with
  | none => exact reaches_refl s
  | some bytes => exact reaches_upd s _ 0 0

theorem reset_reaches (p : DevPtr) (s : State) : Reaches s (ssd1619_reset p s).state := by
  cases p with
  | null => exact reaches_refl s
  | valid =>
    simp only [ssd1619_reset, epd_delay_ms, emit_eq, upd_upd, upd_dev, Res.state]
    exact reaches_upd s _ _ _

theorem send_init_sequence_reaches (env : Env) (fuel : Nat) (s : State) :
    Reaches s (ssd1619_send_init_sequence env fuel s).state := by
  unfold ssd1619_send_init_sequence
  simp only [epd_send_command, epd_send_data, epd_delay_ms, emit_eq, upd_upd, upd_dev,
    set_memory_area_eq, set_memory_pointer_eq]
  refine reaches_trans (reaches_upd s _ 0 0) (bind_reaches (wait_reaches _ _ _ _) ?_)
  intro _ s1
  exact reaches_trans (reaches_upd s1 _ 0 0) (wait_reaches _ _ _ _)

theorem bind_state_inv {α β : Type} {r : Res α} {f : α → State → Res β} (P : State → Prop)
    (h1 : P r.state) (h2 : ∀ a s1, P s1 → P (f a s1).state) : P (r.bind f).state := by
  cases r with
  | ret a s1 => exact h2 a s1 h1
  | hang s1 => exact h1
  | fault s1 => exact h1

theorem init_gpio_reaches (s : State) : Reaches s (init_gpio s) := by
  unfold init_gpio
  simp only [emit_eq, upd_upd, upd_dev]
  split
  · exact reaches_upd s _ _ _
  · exact reaches_upd s _ _ _

theorem spi_init_frame (env : Env) (s : State) :
    (epd_spi_init env s).2.dev.info = s.dev.info
      ∧ (epd_spi_init env s).2.dev.pins = s.dev.pins := by
  unfold epd_spi_init
  by_cases he : env.spi_init s.spiInits = ESP_OK
  · simp only [he, if_true]
    exact ⟨rfl, rfl⟩
  · simp only [he, if_false]
    exact ⟨rfl, rfl⟩

/-- No outcome of `ssd1619_init` changes the device information or the pins. -/
theorem init_frame (env : Env) (fuel : Nat) (p : DevPtr) (s : State) :
    (ssd1619_init env fuel p s).state.dev.info = s.dev.info
      ∧ (ssd1619_init env fuel p s).state.dev.pins = s.dev.pins := by
  cases p with
  | null => exact ⟨rfl, rfl⟩
  | valid =>
    unfold ssd1619_init
    cases hp : s.dev.priv with
    | none => exact ⟨rfl, rfl⟩
    | some pr =>
      have hspi := spi_init_frame env s
      cases hq : epd_spi_init env s with
      | mk err s1 =>
        rw [hq] at hspi
        simp only at hspi ⊢
        by_cases he : err = ESP_OK
        · simp only [he, ne_eq, not_true_eq_false, if_false]
          apply bind_state_inv (fun t => t.dev.info = s.dev.info ∧ t.dev.pins = s.dev.pins)
          · rw [reaches_dev (reaches_trans (init_gpio_reaches s1) (reset_reaches _ _))]
            exact hspi
          · intro _ s2 h2
            apply bind_state_inv (fun t => t.dev.info = s.dev.info ∧ t.dev.pins = s.dev.pins)
            · rw [reaches_dev (send_init_sequence_reaches env fuel s2)]
              exact h2
            · intro _ s3 h3
              exact h3
        · simp only [he, ne_eq, not_false_eq_true, if_true, Res.state]
          exact hspi

/-- The events with which every paint starts: window, cursor, write-RAM command. -/
theorem display_buffer_reaches (env : Env) (fuel : Nat) (buf : List Nat)
    (mode : epd_update_mode_t) (s : State) :
    Reaches
      (s.upd (window_events 0 0 (toU16 ((s.dev.info.width : Int) - 1))
          (toU16 ((s.dev.info.height : Int) - 1)) ++ cursor_events 0 0 ++ [.command 0x24]) 0 0)
      (ssd1619_display_buffer env fuel .valid (some buf) mode s).state := by
  unfold ssd1619_display_buffer
  simp only [set_memory_area_eq, set_memory_pointer_eq, epd_send_command, epd_send_data,
    emit_eq, upd_upd, upd_dev, SSD1619_CMD_WRITE_RAM_BW]
  apply bind_reaches (send_data_buffer_reaches _ _ _ _)
  intro _ s1
  apply bind_reaches
  · split
    · simp only [heap_alloc_eq]
      cases env.alloc s1.allocs
      · exact reaches_upd s1 _ _ _
      · exact reaches_trans (reaches_upd s1 _ _ _)
          (reaches_trans (reaches_upd _ _ _ _) (send_data_buffer_reaches _ _ _ _))
    · exact reaches_refl s1
  · intro _ s2
    cases mode <;>
    · simp only [upd_upd]
      exact reaches_trans (reaches_upd s2 _ _ _)
        (bind_reaches (wait_reaches _ _ _ _) (fun _ s3 => reaches_refl s3))

/-! ## The region paint -/

theorem send_rows_ret (buf : List Nat) (bpl : Nat) :
    ∀ (r row : Nat) (s : State), (row + r) * bpl ≤ buf.length →
      send_rows buf bpl r row s = .ret () (s.upd (row_events buf bpl r row) 0 0) := by
  intro r
  induction r with
  | zero => intro row s _; simp [send_rows, row_events, upd_nil]
  | succ r ih =>
    intro row s h
    have h1 : row * bpl + bpl ≤ buf.length := by
      have : (row + 1) * bpl ≤ (row + (r + 1)) * bpl := Nat.mul_le_mul_right _ (by omega)
      rw [Nat.add_mul, Nat.one_mul] at this
      omega
    have h2 : (row + 1 + r) * bpl ≤ buf.length := by
      rw [show row + 1 + r = row + (r + 1) by omega]; exact h
    simp only [send_rows, epd_send_data_buffer, readBytes, h1, if_true, emit_eq, ret_bind]
    rw [ih (row + 1) _ h2, upd_upd]
    rfl

theorem send_rows_reaches (buf : List Nat) (bpl : Nat) :
    ∀ (r row : Nat) (s : State), Reaches s (send_rows buf bpl r row s).state := by
  intro r
  induction r with
  | zero => intro row s; exact reaches_refl s
  | succ r ih =>
    intro row s
    simp only [send_rows]
    exact bind_reaches (send_data_buffer_reaches _ _ _ _) (fun _ s1 => ih (row + 1) s1)

theorem plane_bytes_append (a b : List Event) :
    plane_bytes (a ++ b) = plane_bytes a ++ plane_bytes b := by
  induction a with
  | nil => rfl
  | cons e es ih => cases e <;> simp [plane_bytes, ih]

theorem plane_bytes_rows (buf : List Nat) (bpl : Nat) :
    ∀ (r row : Nat), plane_bytes (row_events buf bpl r row) =
      (buf.drop (row * bpl)).take (r * bpl) := by
  intro r
  induction r with
  | zero => intro row; simp [row_events, plane_bytes]
  | succ r ih =>
    intro row
    simp only [row_events, plane_bytes, ih]
    rw [show (r + 1) * bpl = bpl + r * bpl by rw [Nat.add_mul, Nat.one_mul, Nat.add_comm],
      List.take_add, List.drop_drop,
      show (row + 1) * bpl = bpl + row * bpl by rw [Nat.add_mul, Nat.one_mul, Nat.add_comm],
      Nat.add_comm bpl (row * bpl)]

theorem display_partial_eq (env : Env) (fuel : Nat) (buf : List Nat)
    (x y width height : Nat) (s : State)
    (hlen : height * bytes_per_line width ≤ buf.length) :
    ssd1619_display_partial env fuel .valid (some buf) x y width height s =
      (wait_while_busy env 10 fuel
        (s.upd (display_partial_events buf x y width height) 0 0)).bind
        fun _ s => .ret ESP_OK s := by
  unfold ssd1619_display_partial
  simp only [set_memory_area_eq, set_memory_pointer_eq, epd_send_command, epd_send_data,
    emit_eq, upd_upd, upd_dev]
  rw [send_rows_ret buf _ height 0 _ (by simpa using hlen)]
  simp only [ret_bind, upd_upd]
  congr 2

theorem display_partial_ret (env : Env) (fuel : Nat) (buf : List Nat)
    (x y width height : Nat) (s : State) (n : Nat)
    (hlen : height * bytes_per_line width ≤ buf.length)
    (hr : ReadyAt env s.polls n) (hf : n < fuel) :
    ssd1619_display_partial env fuel .valid (some buf) x y width height s =
      .ret ESP_OK
        (s.upd (display_partial_events buf x y width height ++ poll_events 10 n) (n + 1) 0) := by
  have hr0 : ReadyAt env (s.polls + 0) n := hr
  rw [display_partial_eq env fuel buf x y width height s hlen,
    wait_upd env 10 n fuel s _ _ _ hr0 hf, ret_bind, Nat.zero_add]

theorem display_partial_reaches (env : Env) (fuel : Nat) (buf : List Nat)
    (x y width height : Nat) (s : State) :
    Reaches
      (s.upd (window_events x y (toU16 ((x : Int) + (width : Int) - 1))
          (toU16 ((y : Int) + (height : Int) - 1)) ++ cursor_events x y ++ [.command 0x24]) 0 0)
      ( ssd1619_display_partial env fuel .valid (some buf) x y width height s).state := by
  unfold ssd1619_display_partial
  simp only [set_memory_area_eq, set_memory_pointer_eq, epd_send_command, epd_send_data,
    emit_eq, upd_upd, upd_dev, SSD1619_CMD_WRITE_RAM_BW]
  apply bind_reaches (send_rows_reaches _ _ _ _ _)
  intro _ s1
  exact reaches_trans (reaches_upd s1 _ _ _)
    (bind_reaches (wait_reaches _ _ _ _) (fun _ s3 => reaches_refl s3))

theorem bytes_per_line_eq (width : Nat) (h : width ≤ 65536) :
    bytes_per_line width = (width + 7) / 8 := by
  unfold bytes_per_line toU16
  split <;> omega

theorem frame_bytes_eq (width height : Nat) (h : width * height < 2147483648) :
    frame_bytes width height = width * height / 8 := by
  unfold frame_bytes toU32 toInt32
  have h0 : (0 : Int) ≤ (width : Int) * (height : Int) := by positivity
  have h1 : ((width : Int) * (height : Int)) < 2147483648 := by exact_mod_cast h
  have e1 : ((width : Int) * (height : Int) + 2147483648) % 4294967296 - 2147483648
      = (width : Int) * (height : Int) := by omega
  rw [e1, Int.tdiv_eq_ediv h0 (by norm_num)]
  have e2 : ((width : Int) * (height : Int)) / 8 = ((width * height / 8 : Nat) : Int) := by
    push_cast; rfl
  rw [e2]
  omega

/-! ## Facts about the 296 x 128 panel -/

theorem full_window_296x128 :
    window_events 0 0 (toU16 (((296 : Nat) : Int) - 1)) (toU16 (((128 : Nat) : Int) - 1))
        ++ cursor_events 0 0 =
      [.command 0x44, .data 0x00, .data 0x24,
       .command 0x45, .data 0x00, .data 0x00, .data 0x7F, .data 0x00,
       .command 0x4E, .data 0x00, .command 0x4F, .data 0x00, .data 0x00] := by
  decide

theorem frame_bytes_296x128 : frame_bytes 296 128 = 4736 := by decide

theorem panel_296x128_info :
    panel_296x128.dev.info.width = 296 ∧ panel_296x128.dev.info.height = 128
      ∧ panel_296x128.dev.info.color_mode = epd_color_mode_t.EPD_MODE_1C := by
  have h := (init_frame idle_env 1 .valid
    (boot (new_device g_epd_pins 296 128 .EPD_MODE_1C))).1
  have e : panel_296x128.dev.info =
      (boot (new_device g_epd_pins 296 128 .EPD_MODE_1C)).dev.info := h
  rw [e]
  exact ⟨rfl, rfl, rfl⟩

theorem idle_ready (k : Nat) : ReadyAt idle_env k 0 :=
  ⟨fun i hi => absurd hi (Nat.not_lt_zero i), rfl⟩

/-! ## Claims -/

/-- C1: on the device created with width 296, height 128, monochrome, and
initialized, `ssd1619_display_buffer` with a 4736-byte buffer of `0xAA` and
`Full` mode returns `ESP_OK`, and what it adds to the trace is, in order: the
RAM-X-range command `0x44` with its bytes, the RAM-Y-range command `0x45` with
`(0x00, 0x00, 0x7F, 0x00)`, the cursor commands, the write-RAM command `0x24`
with exactly the 4736 bytes `0xAA`, update-control-2 `0x22` with the `Full`
trigger byte `0xC7`, master activation `0x20`, then the busy polls. -/
theorem C1_end_to_end_full_paint (env : Env) (pins : epd_pins_t) (fuel0 fuel n : Nat)
    (d : epd_device_t) (s1 : State)
    (hcreate : epd_ssd1619_create true true pins 296 128 .EPD_MODE_1C = some d)
    (hinit : ssd1619_init env fuel0 .valid (boot d) = .ret ESP_OK s1)
    (hr : ReadyAt env s1.polls n) (hf : n < fuel) :
    ∃ s2, ssd1619_display_buffer env fuel .valid (some (List.replicate 4736 0xAA))
        .EPD_UPDATE_FULL s1 = .ret ESP_OK s2
      ∧ s2.trace = s1.trace ++
          [.command 0x44, .data 0x00, .data 0x24,
           .command 0x45, .data 0x00, .data 0x00, .data 0x7F, .data 0x00,
           .command 0x4E, .data 0x00, .command 0x4F, .data 0x00, .data 0x00,
           .command 0x24, .dataBuffer (List.replicate 4736 0xAA),
           .command 0x22, .data (trigger_byte .EPD_UPDATE_FULL), .command 0x20]
          ++ poll_events 10 n := by
  have hd : d = new_device pins 296 128 .EPD_MODE_1C := by
    simp [epd_ssd1619_create] at hcreate
    exact hcreate.symm
  have hinfo : s1.dev.info = d.info := by
    have h := (init_frame env fuel0 .valid (boot d)).1
    rw [hinit] at h
    exact h
  have hw : s1.dev.info.width = 296 := by rw [hinfo, hd]; rfl
  have hh : s1.dev.info.height = 128 := by rw [hinfo, hd]; rfl
  have hc : s1.dev.info.color_mode = epd_color_mode_t.EPD_MODE_1C := by rw [hinfo, hd]; rfl
  refine ⟨_, display_buffer_ret env fuel _ _ s1 n ?_ hr hf, ?_⟩
  · rw [hw, hh, frame_bytes_296x128, List.length_replicate]
  · simp only [display_buffer_final, upd_trace, display_buffer_events, hw, hh, hc,
      frame_bytes_296x128, full_window_296x128, red_events, List.take_replicate,
      Nat.min_self]
    simp only [reduceCtorEq, false_and, if_false, List.append_nil, List.append_assoc,
      List.cons_append, List.nil_append]

/-- Witness for C1: the harness pins, a controller that is never busy. -/
theorem C1_end_to_end_full_paint_witness :
    ∃ s2, ssd1619_display_buffer idle_env 1 .valid (some (List.replicate 4736 0xAA))
        .EPD_UPDATE_FULL panel_296x128 = .ret ESP_OK s2
      ∧ s2.trace = panel_296x128.trace ++
          [.command 0x44, .data 0x00, .data 0x24,
           .command 0x45, .data 0x00, .data 0x00, .data 0x7F, .data 0x00,
           .command 0x4E, .data 0x00, .command 0x4F, .data 0x00, .data 0x00,
           .command 0x24, .dataBuffer (List.replicate 4736 0xAA),
           .command 0x22, .data (trigger_byte .EPD_UPDATE_FULL), .command 0x20]
          ++ poll_events 10 0 :=
  C1_end_to_end_full_paint idle_env g_epd_pins 1 1 0
    (new_device g_epd_pins 296 128 .EPD_MODE_1C) panel_296x128 rfl rfl
    (idle_ready _) (by decide)

/-- What a full-frame paint of a 296 x 128 device adds to the trace starts with
the window and cursor programming of the whole panel and the write-RAM
command. -/
theorem display_buffer_296x128_start (env : Env) (fuel : Nat) (buf : List Nat)
    (mode : epd_update_mode_t) (s : State)
    (hw : s.dev.info.width = 296) (hh : s.dev.info.height = 128) :
    ∃ rest, (ssd1619_display_buffer env fuel .valid (some buf) mode s).state.trace =
      s.trace ++ ([.command 0x44, .data 0x00, .data 0x24,
        .command 0x45, .data 0x00, .data 0x00, .data 0x7F, .data 0x00,
        .command 0x4E, .data 0x00, .command 0x4F, .data 0x00, .data 0x00,
        .command 0x24] ++ rest) := by
  obtain ⟨es, h⟩ := reaches_trace (display_buffer_reaches env fuel buf mode s)
  refine ⟨es, ?_⟩
  rw [h, upd_trace, hw, hh, full_window_296x128]
  simp only [List.append_assoc, List.cons_append, List.nil_append]

/-- C2, as stated, fails: in the end-to-end call on the 296 x 128 device the two
bytes after the RAM-X-range command `0x44` are not `(0x00, 0x25)`. -/
theorem C2_x_range_not_0x25 :
    ¬ ∃ rest, (ssd1619_display_buffer idle_env 1 .valid (some (List.replicate 4736 0xAA))
        .EPD_UPDATE_FULL panel_296x128).state.trace =
      panel_296x128.trace ++ ([.command 0x44, .data 0x00, .data 0x25] ++ rest) := by
  rintro ⟨rest, hrest⟩
  obtain ⟨es, h⟩ := display_buffer_296x128_start idle_env 1 (List.replicate 4736 0xAA)
    .EPD_UPDATE_FULL panel_296x128 panel_296x128_info.1 panel_296x128_info.2.1
  rw [h] at hrest
  have h2 := List.append_cancel_left hrest
  simp only [List.cons_append, List.nil_append, List.cons.injEq, Event.data.injEq] at h2
  omega

/-- C2 amended: on every device with width 296 and height 128, for every
non-null buffer and every mode, the RAM-X-range command `0x44` is followed by
exactly the two data bytes `(0x00, 0x24)` (columns 0 and 36) and then by the
RAM-Y-range command `0x45` with `(0x00, 0x00, 0x7F, 0x00)`. -/
theorem C2_x_range_is_0x24 (env : Env) (fuel : Nat) (buf : List Nat)
    (mode : epd_update_mode_t) (s : State)
    (hw : s.dev.info.width = 296) (hh : s.dev.info.height = 128) :
    (∃ rest, (ssd1619_display_buffer env fuel .valid (some buf) mode s).state.trace =
      s.trace ++ ([.command 0x44, .data 0x00, .data 0x24,
        .command 0x45, .data 0x00, .data 0x00, .data 0x7F, .data 0x00] ++ rest))
      ∧ (295 >>> 3 = 36 ∧ (0x24 : Nat) = 36) := by
  obtain ⟨es, h⟩ := display_buffer_296x128_start env fuel buf mode s hw hh
  refine ⟨⟨[.command 0x4E, .data 0x00, .command 0x4F, .data 0x00, .data 0x00,
    .command 0x24] ++ es, ?_⟩, by decide⟩
  rw [h]
  rfl

/-- Witness for C2 amended: the end-to-end call. -/
theorem C2_x_range_is_0x24_witness :
    (∃ rest, (ssd1619_display_buffer idle_env 1 .valid (some (List.replicate 4736 0xAA))
        .EPD_UPDATE_FULL panel_296x128).state.trace =
      panel_296x128.trace ++ ([.command 0x44, .data 0x00, .data 0x24,
        .command 0x45, .data 0x00, .data 0x00, .data 0x7F, .data 0x00] ++ rest))
      ∧ (295 >>> 3 = 36 ∧ (0x24 : Nat) = 36) :=
  C2_x_range_is_0x24 idle_env 1 (List.replicate 4736 0xAA) .EPD_UPDATE_FULL panel_296x128
    panel_296x128_info.1 panel_296x128_info.2.1

/-- C10: with a null buffer, `ssd1619_display_buffer` and
`ssd1619_display_partial` return `ESP_ERR_INVALID_ARG` in the very state they
were called in: no transport call is made and the device is unchanged; this
holds for a null and for a valid device pointer, every mode and every
region. -/
theorem C10_null_buffer_rejected (env : Env) (fuel : Nat) (dev : DevPtr)
    (mode : epd_update_mode_t) (x y width height : Nat) (s : State) :
    ssd1619_display_buffer env fuel dev none mode s = .ret ESP_ERR_INVALID_ARG s
      ∧ ssd1619_display_partial env fuel dev none x y width height s
          = .ret ESP_ERR_INVALID_ARG s
      ∧ (ssd1619_display_buffer env fuel dev none mode s).state.trace = s.trace
      ∧ ( ssd1619_display_partial env fuel dev none x y width height s).state.trace = s.trace
      ∧ (ssd1619_display_buffer env fuel dev none mode s).state.dev = s.dev
      ∧ ( ssd1619_display_partial env fuel dev none x y width height s).state.dev = s.dev := by
  cases dev <;> exact ⟨rfl, rfl, rfl, rfl, rfl, rfl⟩

theorem and_0xFF (a : Nat) : a &&& 0xFF = a % 256 :=
  Nat.and_pow_two_sub_one_eq_mod a 8

theorem shr_8 (a : Nat) : a >>> 8 = a / 256 :=
  Nat.shiftRight_eq_div_pow a 8

/-- The bytes of the window and cursor programming, written with `%` and `/`. -/
theorem window_cursor_bytes (x0 y0 x1 y1 : Nat) :
    window_events x0 y0 x1 y1 ++ cursor_events x0 y0 =
      [.command 0x44, .data ((x0 >>> 3) % 256), .data ((x1 >>> 3) % 256),
       .command 0x45, .data (y0 % 256), .data (y0 / 256 % 256),
       .data (y1 % 256), .data (y1 / 256 % 256),
       .command 0x4E, .data ((x0 >>> 3) % 256),
       .command 0x4F, .data (y0 % 256), .data (y0 / 256 % 256)] := by
  simp only [window_events, cursor_events, and_0xFF, shr_8, List.cons_append,
    List.nil_append]

theorem window_cursor_in_range (x0 y0 x1 y1 : Nat) :
    window_events (x0 % 2048) (y0 % 65536) (x1 % 2048) (y1 % 65536)
        ++ cursor_events (x0 % 2048) (y0 % 65536) =
      window_spec (x0 % 2048) (y0 % 65536) (x1 % 2048) (y1 % 65536) := by
  have hx : ∀ a : Nat, ((a % 2048) >>> 3) % 256 = (a % 2048) >>> 3 := by
    intro a
    rw [Nat.shiftRight_eq_div_pow]
    omega
  have hy : ∀ a : Nat, (a % 65536) / 256 % 256 = (a % 65536) / 256 := by
    intro a
    omega
  rw [window_cursor_bytes]
  simp only [window_spec, hx, hy]

/-- C3, as stated, fails: on a 4096 pixel wide device the end byte sent after
the RAM-X-range command is not `4095 >> 3 = 511`. -/
theorem C3_x_range_not_unmasked :
    ¬ ∃ rest, (ssd1619_display_buffer idle_env 1 .valid (some (List.replicate 8192 0x00))
        .EPD_UPDATE_FULL (boot (new_device g_epd_pins 4096 16 .EPD_MODE_1C))).state.trace =
      (boot (new_device g_epd_pins 4096 16 .EPD_MODE_1C)).trace
        ++ (window_spec 0 0 4095 15 ++ [.command 0x24] ++ rest) := by
  rintro ⟨rest, hrest⟩
  obtain ⟨es, h⟩ := reaches_trace (display_buffer_reaches idle_env 1
    (List.replicate 8192 0x00) .EPD_UPDATE_FULL
    (boot (new_device g_epd_pins 4096 16 .EPD_MODE_1C)))
  rw [h, upd_trace] at hrest
  have e : window_events 0 0
      (toU16 (((boot (new_device g_epd_pins 4096 16 .EPD_MODE_1C)).dev.info.width : Int) - 1))
      (toU16 (((boot (new_device g_epd_pins 4096 16 .EPD_MODE_1C)).dev.info.height : Int) - 1))
      ++ cursor_events 0 0 =
      [.command 0x44, .data 0x00, .data 0xFF,
       .command 0x45, .data 0x00, .data 0x00, .data 0x0F, .data 0x00,
       .command 0x4E, .data 0x00, .command 0x4F, .data 0x00, .data 0x00] := by
    decide
  rw [e, List.append_assoc] at hrest
  have h2 := List.append_cancel_left hrest
  simp only [window_spec, List.cons_append, List.nil_append, List.cons.injEq,
    Event.data.injEq] at h2
  omega

/-- C3 amended: for every device, non-null buffer, mode and region, what
`ssd1619_display_buffer` and `ssd1619_display_partial` add to the trace of any
earlier state starts with RAM-X-range `0x44` (start and end bytes
`(x >> 3) & 0xFF`), RAM-Y-range `0x45` (rows unshifted, low then high byte),
RAM-X-counter `0x4E` and RAM-Y-counter `0x4F` at the window origin, and only
then the write-RAM command `0x24`; the bytes are those the specification
names whenever the X coordinates are below 2048. -/
theorem C3_window_before_plane_data (env : Env) (fuel : Nat) (buf : List Nat)
    (mode : epd_update_mode_t) (x y width height : Nat) (s : State) :
    (∃ rest, (ssd1619_display_buffer env fuel .valid (some buf) mode s).state.trace =
        s.trace ++ (window_events 0 0 (toU16 ((s.dev.info.width : Int) - 1))
            (toU16 ((s.dev.info.height : Int) - 1)) ++ cursor_events 0 0
          ++ [.command 0x24] ++ rest))
      ∧ (∃ rest, ( ssd1619_display_partial env fuel .valid (some buf) x y width height
          s).state.trace =
        s.trace ++ (window_events x y (toU16 ((x : Int) + (width : Int) - 1))
            (toU16 ((y : Int) + (height : Int) - 1)) ++ cursor_events x y
          ++ [.command 0x24] ++ rest))
      ∧ (∀ x0 y0 x1 y1 : Nat, window_events x0 y0 x1 y1 ++ cursor_events x0 y0 =
          [.command 0x44, .data ((x0 >>> 3) % 256), .data ((x1 >>> 3) % 256),
           .command 0x45, .data (y0 % 256), .data (y0 / 256 % 256),
           .data (y1 % 256), .data (y1 / 256 % 256),
           .command 0x4E, .data ((x0 >>> 3) % 256),
           .command 0x4F, .data (y0 % 256), .data (y0 / 256 % 256)])
      ∧ (∀ x0 y0 x1 y1 : Nat,
          window_events (x0 % 2048) (y0 % 65536) (x1 % 2048) (y1 % 65536)
              ++ cursor_events (x0 % 2048) (y0 % 65536) =
            window_spec (x0 % 2048) (y0 % 65536) (x1 % 2048) (y1 % 65536)) := by
  refine ⟨?_, ?_, window_cursor_bytes, window_cursor_in_range⟩
  · obtain ⟨es, h⟩ := reaches_trace (display_buffer_reaches env fuel buf mode s)
    exact ⟨es, by rw [h, upd_trace, List.append_assoc]⟩
  · obtain ⟨es, h⟩ := reaches_trace
      (display_partial_reaches env fuel buf x y width height s)
    exact ⟨es, by rw [h, upd_trace, List.append_assoc]⟩

theorem plane_bytes_window (x0 y0 x1 y1 : Nat) :
    plane_bytes (window_events x0 y0 x1 y1) = [] := rfl

theorem plane_bytes_cursor (x y : Nat) : plane_bytes (cursor_events x y) = [] := rfl

theorem plane_bytes_poll (ticks : Nat) : ∀ n, plane_bytes (poll_events ticks n) = [] := by
  intro n
  induction n with
  | zero => rfl
  | succ n ih => simpa [poll_events, plane_bytes] using ih

/-- C4 fails on the code: on a 122 x 250 monochrome device (window of
`ceil(122/8) = 16` columns by 250 rows, a Pixel Buffer of 4000 bytes)
`ssd1619_display_buffer` returns `ESP_OK` after streaming only
`122 * 250 / 8 = 3812` bytes of the caller's buffer. -/
theorem C4_frame_truncated_122x250 :
    ∃ s2, ssd1619_display_buffer idle_env 1 .valid (some (List.replicate 4000 0xAA))
        .EPD_UPDATE_FULL (boot (new_device g_epd_pins 122 250 .EPD_MODE_1C)) = .ret ESP_OK s2
      ∧ plane_bytes s2.trace = List.replicate 3812 0xAA
      ∧ (122 + 7) / 8 * 250 = 4000 := by
  have hfb : frame_bytes 122 250 = 3812 := by decide
  refine ⟨_, display_buffer_ret idle_env 1 _ .EPD_UPDATE_FULL
    (boot (new_device g_epd_pins 122 250 .EPD_MODE_1C)) 0 ?_ (idle_ready _) (by decide), ?_,
    by decide⟩
  · show frame_bytes 122 250 ≤ (List.replicate 4000 0xAA).length
    rw [hfb, List.length_replicate]
    decide
  · show plane_bytes (([] : List Event) ++ (display_buffer_events
      (new_device g_epd_pins 122 250 .EPD_MODE_1C) _ _ _ ++ poll_events 10 0)) = _
    simp only [display_buffer_events, plane_bytes_append, plane_bytes_window,
      plane_bytes_cursor, plane_bytes_poll, red_events, List.nil_append, List.append_nil]
    show plane_bytes [Event.command 0x24,
        Event.dataBuffer (List.take (frame_bytes 122 250) (List.replicate 4000 0xAA))]
      ++ plane_bytes [] ++ plane_bytes [Event.command 0x22,
        Event.data (trigger_byte .EPD_UPDATE_FULL), Event.command 0x20] = _
    rw [hfb, List.take_replicate]
    simp only [plane_bytes, List.append_nil, List.nil_append]
    congr 1

theorem toU16_end (x w : Nat) (hw : 1 ≤ w) (hx : x + w - 1 ≤ 65535) :
    toU16 ((x : Int) + (w : Int) - 1) = x + w - 1 := by
  unfold toU16
  omega

/-- C5, as stated, fails: for the region `x = 2048, w = 8` the start byte sent
after the RAM-X-range command is not `2048 >> 3 = 256`. -/
theorem C5_region_x_not_unmasked :
    ¬ ∃ rest, ( ssd1619_display_partial idle_env 1 .valid (some [0xFF]) 2048 0 8 1
        panel_296x128).state.trace =
      panel_296x128.trace ++ (window_spec 2048 0 2055 0 ++ [.command 0x24] ++ rest) := by
  rintro ⟨rest, hrest⟩
  obtain ⟨es, h⟩ := reaches_trace (display_partial_reaches idle_env 1 [0xFF] 2048 0 8 1
    panel_296x128)
  rw [h, upd_trace] at hrest
  have e : window_events 2048 0 (toU16 (((2048 : Nat) : Int) + ((8 : Nat) : Int) - 1))
      (toU16 (((0 : Nat) : Int) + ((1 : Nat) : Int) - 1)) ++ cursor_events 2048 0 =
      [.command 0x44, .data 0x00, .data 0x00,
       .command 0x45, .data 0x00, .data 0x00, .data 0x00, .data 0x00,
       .command 0x4E, .data 0x00, .command 0x4F, .data 0x00, .data 0x00] := by
    decide
  rw [e, List.append_assoc] at hrest
  have h2 := List.append_cancel_left hrest
  simp only [window_spec, List.cons_append, List.nil_append, List.cons.injEq,
    Event.data.injEq] at h2
  omega

/-- C5 amended: for every device, every buffer holding at least
`h * ceil(w/8)` bytes and every region with `w >= 1`, `h >= 1`,
`x + w - 1 <= 65535`, `y + h - 1 <= 65535`, once the busy input clears
`ssd1619_display_partial` returns `ESP_OK` with the device unchanged, having
sent: the X range bytes `(x >> 3) & 0xFF` and `((x + w - 1) >> 3) & 0xFF`, the
Y range rows `y` and `y + h - 1`, the cursor at `(x >> 3, y)`, command `0x24`,
then `h` transfers of `ceil(w/8)` bytes that together are
`buffer[0 .. h * ceil(w/8) - 1]`, then `0x22` with `0x04`, then `0x20`. -/
theorem C5_region_paint (env : Env) (fuel : Nat) (buf : List Nat) (x y w h : Nat)
    (s : State) (n : Nat)
    (hw : 1 ≤ w) (hh : 1 ≤ h) (hx : x + w - 1 ≤ 65535) (hy : y + h - 1 ≤ 65535)
    (hlen : h * ((w + 7) / 8) ≤ buf.length)
    (hr : ReadyAt env s.polls n) (hf : n < fuel) :
    ∃ s2, ssd1619_display_partial env fuel .valid (some buf) x y w h s = .ret ESP_OK s2
      ∧ s2.trace = s.trace ++ (window_events x y (x + w - 1) (y + h - 1)
          ++ cursor_events x y ++ [.command 0x24]
          ++ row_events buf ((w + 7) / 8) h 0
          ++ [.command 0x22, .data 0x04, .command 0x20]) ++ poll_events 10 n
      ∧ plane_bytes (row_events buf ((w + 7) / 8) h 0) = buf.take (h * ((w + 7) / 8))
      ∧ (buf.take (h * ((w + 7) / 8))).length = h * ((w + 7) / 8)
      ∧ s2.dev = s.dev := by
  have hb : bytes_per_line w = (w + 7) / 8 := bytes_per_line_eq w (by omega)
  refine ⟨_, display_partial_ret env fuel buf x y w h s n (by rw [hb]; exact hlen) hr hf,
    ?_, ?_, ?_, rfl⟩
  · simp only [upd_trace, display_partial_events, hb, toU16_end x w hw hx,
      toU16_end y h hh hy, List.append_assoc]
  · rw [plane_bytes_rows, Nat.zero_mul, List.drop_zero]
  · rw [List.length_take, Nat.min_eq_left hlen]

/-- Witness for C5: the call `display_partial(epd, test_buffer, 50, 50, 50, 10)`
of `test_sleep_wakeup`; it streams the first 70 bytes of the buffer. -/
theorem C5_region_paint_witness :
    (10 * ((50 + 7) / 8) = 70) ∧
    ∃ s2, ssd1619_display_partial idle_env 1 .valid (some test_buffer) 50 50 50 10
        panel_296x128 = .ret ESP_OK s2
      ∧ s2.trace = panel_296x128.trace ++ (window_events 50 50 (50 + 50 - 1) (50 + 10 - 1)
          ++ cursor_events 50 50 ++ [.command 0x24]
          ++ row_events test_buffer ((50 + 7) / 8) 10 0
          ++ [.command 0x22, .data 0x04, .command 0x20]) ++ poll_events 10 0
      ∧ plane_bytes (row_events test_buffer ((50 + 7) / 8) 10 0)
          = test_buffer.take (10 * ((50 + 7) / 8))
      ∧ (test_buffer.take (10 * ((50 + 7) / 8))).length = 10 * ((50 + 7) / 8)
      ∧ s2.dev = panel_296x128.dev :=
  ⟨by decide, C5_region_paint idle_env 1 test_buffer 50 50 50 10 panel_296x128 0
    (by decide) (by decide) (by decide) (by decide) (by decide) (idle_ready _) (by decide)⟩

/-- C6, as stated, fails: on a device whose capability flags are all clear the
harness call `display_partial(epd, test_buffer, 50, 50, 50, 10)` returns
`ESP_OK` after programming the window and sending the write-RAM command. -/
theorem C6_region_paint_ignores_flags :
    (with_capabilities panel_296x128 0).dev.info.capabilities &&& EPD_CAP_PARTIAL_REFRESH = 0
      ∧ ( ssd1619_display_partial idle_env 1 .valid (some test_buffer) 50 50 50 10
          (with_capabilities panel_296x128 0)).val? = some ESP_OK
      ∧ ∃ es, ( ssd1619_display_partial idle_env 1 .valid (some test_buffer) 50 50 50 10
          (with_capabilities panel_296x128 0)).state.trace =
        (with_capabilities panel_296x128 0).trace ++ (window_events 50 50 99 59
          ++ cursor_events 50 50 ++ [.command 0x24] ++ es) := by
  refine ⟨by decide, ?_, ?_⟩
  · rw [display_partial_ret idle_env 1 test_buffer 50 50 50 10
      (with_capabilities panel_296x128 0) 0 (by decide) (idle_ready _) (by decide)]
    rfl
  · obtain ⟨es, h⟩ := reaches_trace (display_partial_reaches idle_env 1 test_buffer
      50 50 50 10 (with_capabilities panel_296x128 0))
    refine ⟨es, ?_⟩
    rw [h, upd_trace, List.append_assoc]
    rfl

/-- C6 amended: the capability test is made by the harness, not by the driver.
On a device without the partial-refresh flag `test_partial_refresh` returns
`true` in the state it was called in (no transport call at all), while
`ssd1619_display_partial` on that same device, given a buffer that holds the
region, paints it and returns `ESP_OK`. -/
theorem C6_gate_is_in_harness (env : Env) (fuel : Nat) (buf : List Nat)
    (x y w h : Nat) (s : State) (n : Nat)
    (hcap : s.dev.info.capabilities &&& EPD_CAP_PARTIAL_REFRESH = 0)
    (hlen : h * bytes_per_line w ≤ buf.length)
    (hr : ReadyAt env s.polls n) (hf : n < fuel) :
    test_partial_refresh env fuel s = .ret true s
      ∧ ssd1619_display_partial env fuel .valid (some buf) x y w h s =
        .ret ESP_OK (s.upd (display_partial_events buf x y w h ++ poll_events 10 n) (n + 1) 0) := by
  refine ⟨?_, display_partial_ret env fuel buf x y w h s n hlen hr hf⟩
  unfold test_partial_refresh
  rw [if_pos hcap]

/-- Witness for C6 amended: the 296 x 128 device with all flags clear. -/
theorem C6_gate_is_in_harness_witness :
    test_partial_refresh idle_env 1 (with_capabilities panel_296x128 0)
        = .ret true (with_capabilities panel_296x128 0)
      ∧ ssd1619_display_partial idle_env 1 .valid (some test_buffer) 50 50 50 10
          (with_capabilities panel_296x128 0) =
        .ret ESP_OK ((with_capabilities panel_296x128 0).upd
          (display_partial_events test_buffer 50 50 50 10 ++ poll_events 10 0) (0 + 1) 0) :=
  C6_gate_is_in_harness idle_env 1 test_buffer 50 50 50 10
    (with_capabilities panel_296x128 0) 0 (by decide) (by decide) (idle_ready _) (by decide)

theorem no_trigger_before (d : epd_device_t) (ok : Bool) (bytes : List Nat) (x1 y1 : Nat) :
    Event.command 0x22 ∉ window_events 0 0 x1 y1 ++ cursor_events 0 0
      ++ [.command 0x24, .dataBuffer bytes]
      ++ red_events d.info.color_mode ok (frame_bytes d.info.width d.info.height) := by
  unfold red_events
  split <;> simp [window_events, cursor_events]

/-- C7: in every full-frame paint of a non-null buffer that holds the frame,
the update-control-2 command `0x22` occurs once, is followed by exactly one
data byte, `trigger_byte mode`, and then by master activation `0x20` and
busy polls only; the byte depends on the mode alone and is `0xC7` for Full,
`0x04` for Partial and `0x0C` for Fast, three different bytes. -/
theorem C7_trigger_byte_from_mode (env : Env) (fuel : Nat) (buf : List Nat)
    (mode : epd_update_mode_t) (s : State)
    (hlen : frame_bytes s.dev.info.width s.dev.info.height ≤ buf.length) :
    (∃ pre post, (ssd1619_display_buffer env fuel .valid (some buf) mode s).state.trace =
        s.trace ++ (pre ++ [.command 0x22, .data (trigger_byte mode), .command 0x20] ++ post)
      ∧ Event.command 0x22 ∉ pre
      ∧ ∀ e, e ∈ post → Event.isPoll 10 e)
    ∧ trigger_byte .EPD_UPDATE_FULL = 0xC7
    ∧ trigger_byte .EPD_UPDATE_PARTIAL = 0x04
    ∧ trigger_byte .EPD_UPDATE_FAST = 0x0C
    ∧ (0xC7 : Nat) ≠ 0x04 ∧ (0xC7 : Nat) ≠ 0x0C ∧ (0x04 : Nat) ≠ 0x0C := by
  refine ⟨?_, rfl, rfl, rfl, by decide, by decide, by decide⟩
  obtain ⟨post, k, h, hp⟩ := display_buffer_state env fuel buf mode s hlen
  refine ⟨_, post, ?_, no_trigger_before s.dev (env.alloc s.allocs)
    (buf.take (frame_bytes s.dev.info.width s.dev.info.height))
    (toU16 ((s.dev.info.width : Int) - 1)) (toU16 ((s.dev.info.height : Int) - 1)), hp⟩
  rw [h, upd_trace, display_buffer_events]

/-- Witness for C7: the three modes on the initialized 296 x 128 device. -/
theorem C7_trigger_byte_from_mode_witness :
    ((∃ pre post, (ssd1619_display_buffer idle_env 1 .valid
          (some (List.replicate 4736 0xAA)) .EPD_UPDATE_FAST panel_296x128).state.trace =
        panel_296x128.trace ++ (pre ++ [.command 0x22,
          .data (trigger_byte .EPD_UPDATE_FAST), .command 0x20] ++ post)
      ∧ Event.command 0x22 ∉ pre
      ∧ ∀ e, e ∈ post → Event.isPoll 10 e)
    ∧ trigger_byte .EPD_UPDATE_FULL = 0xC7
    ∧ trigger_byte .EPD_UPDATE_PARTIAL = 0x04
    ∧ trigger_byte .EPD_UPDATE_FAST = 0x0C
    ∧ (0xC7 : Nat) ≠ 0x04 ∧ (0xC7 : Nat) ≠ 0x0C ∧ (0x04 : Nat) ≠ 0x0C) :=
  C7_trigger_byte_from_mode idle_env 1 (List.replicate 4736 0xAA) .EPD_UPDATE_FAST
    panel_296x128
    (by rw [panel_296x128_info.1, panel_296x128_info.2.1, frame_bytes_296x128,
      List.length_replicate])

theorem no_secondary_command (d : epd_device_t) (ok : Bool) (buf : List Nat)
    (mode : epd_update_mode_t) (hc : d.info.color_mode ≠ epd_color_mode_t.EPD_MODE_3C) :
    Event.command 0x26 ∉ display_buffer_events d ok buf mode := by
  simp [display_buffer_events, red_events, hc, window_events, cursor_events]

/-- Facts about the freshly created 296 x 128 four-colour device. -/
theorem panel_4c_info :
    (boot (new_device g_epd_pins 296 128 .EPD_MODE_4C)).dev.info.width = 296
      ∧ (boot (new_device g_epd_pins 296 128 .EPD_MODE_4C)).dev.info.height = 128
      ∧ (boot (new_device g_epd_pins 296 128 .EPD_MODE_4C)).dev.info.color_mode
          = epd_color_mode_t.EPD_MODE_4C :=
  ⟨rfl, rfl, rfl⟩

/-- C8, as stated, fails: on a four-colour device, with the heap never failing,
a full-frame paint returns `ESP_OK` without ever sending the
write-secondary-plane command `0x26`. -/
theorem C8_no_secondary_plane_on_4c :
    ∃ s2, ssd1619_display_buffer idle_env 1 .valid (some (List.replicate 4736 0xAA))
        .EPD_UPDATE_FULL (boot (new_device g_epd_pins 296 128 .EPD_MODE_4C)) = .ret ESP_OK s2
      ∧ s2.dev.info.color_mode = epd_color_mode_t.EPD_MODE_4C
      ∧ Event.command 0x26 ∉ s2.trace := by
  refine ⟨_, display_buffer_ret idle_env 1 _ .EPD_UPDATE_FULL
    (boot (new_device g_epd_pins 296 128 .EPD_MODE_4C)) 0 ?_ (idle_ready _) (by decide),
    rfl, ?_⟩
  · show frame_bytes 296 128 ≤ (List.replicate 4736 0xAA).length
    rw [frame_bytes_296x128, List.length_replicate]
  · show Event.command 0x26 ∉ ([] : List Event) ++ (display_buffer_events
      (new_device g_epd_pins 296 128 .EPD_MODE_4C) _ _ _ ++ poll_events 10 0)
    rw [List.nil_append, List.mem_append]
    rintro (hm | hm)
    · exact no_secondary_command _ _ _ _ (by decide) hm
    · simp [poll_events] at hm

/-- C8 amended: in a full-frame paint of a non-null buffer that holds the
frame, a device whose colour mode is not 3-colour (monochrome or 4-colour)
gets no write-secondary-plane command `0x26`; a 3-colour device on which the
scratch allocation succeeds gets, after the primary plane taken from the
caller's buffer and before the update trigger, the command `0x26` followed by
as many `0x00` bytes as were streamed for the primary plane. -/
theorem C8_secondary_plane (env : Env) (fuel : Nat) (buf : List Nat)
    (mode : epd_update_mode_t) (s : State)
    (hlen : frame_bytes s.dev.info.width s.dev.info.height ≤ buf.length) :
    (s.dev.info.color_mode ≠ epd_color_mode_t.EPD_MODE_3C →
      ∃ es, (ssd1619_display_buffer env fuel .valid (some buf) mode s).state.trace =
          s.trace ++ es ∧ Event.command 0x26 ∉ es)
    ∧ (s.dev.info.color_mode = epd_color_mode_t.EPD_MODE_3C → env.alloc s.allocs = true →
      ∃ post, (ssd1619_display_buffer env fuel .valid (some buf) mode s).state.trace =
          s.trace ++ (window_events 0 0 (toU16 ((s.dev.info.width : Int) - 1))
              (toU16 ((s.dev.info.height : Int) - 1)) ++ cursor_events 0 0
            ++ [.command 0x24,
                .dataBuffer (buf.take (frame_bytes s.dev.info.width s.dev.info.height)),
                .command 0x26,
                .dataBuffer (List.replicate (frame_bytes s.dev.info.width s.dev.info.height) 0),
                .command 0x22, .data (trigger_byte mode), .command 0x20]
            ++ post)
        ∧ (∀ e, e ∈ post → Event.isPoll 10 e)
        ∧ (List.replicate (frame_bytes s.dev.info.width s.dev.info.height) 0).length
            = (buf.take (frame_bytes s.dev.info.width s.dev.info.height)).length) := by
  obtain ⟨post, k, h, hp⟩ := display_buffer_state env fuel buf mode s hlen
  refine ⟨fun hc => ⟨_, by rw [h, upd_trace], ?_⟩, fun hc ha => ⟨post, ?_, hp, ?_⟩⟩
  · have hpoll : Event.command 0x26 ∉ post := by
      intro hm
      rcases hp _ hm with ⟨b, hb⟩ | hb <;> cases hb
    rw [List.mem_append]
    rintro (hm | hm)
    · exact no_secondary_command _ _ _ _ hc hm
    · exact hpoll hm
  · rw [h, upd_trace]
    simp [display_buffer_events, red_events, hc, ha]
  · rw [List.length_replicate, List.length_take, Nat.min_eq_left hlen]

/-- Witness for C8 amended: the harness configuration, 296 x 128 in 3-colour
mode, with the heap never failing. -/
theorem C8_secondary_plane_witness :
    ∃ post, (ssd1619_display_buffer idle_env 1 .valid (some (List.replicate 4736 0xAA))
        .EPD_UPDATE_FULL (boot (new_device g_epd_pins 296 128 .EPD_MODE_3C))).state.trace =
      (boot (new_device g_epd_pins 296 128 .EPD_MODE_3C)).trace ++
        (window_events 0 0 (toU16 (((296 : Nat) : Int) - 1)) (toU16 (((128 : Nat) : Int) - 1))
          ++ cursor_events 0 0
          ++ [.command 0x24,
              .dataBuffer ((List.replicate 4736 0xAA).take (frame_bytes 296 128)),
              .command 0x26, .dataBuffer (List.replicate (frame_bytes 296 128) 0),
              .command 0x22, .data (trigger_byte .EPD_UPDATE_FULL), .command 0x20]
          ++ post)
      ∧ (∀ e, e ∈ post → Event.isPoll 10 e)
      ∧ (List.replicate (frame_bytes 296 128) 0).length
          = ((List.replicate 4736 0xAA).take (frame_bytes 296 128)).length :=
  (C8_secondary_plane idle_env 1 (List.replicate 4736 0xAA) .EPD_UPDATE_FULL
    (boot (new_device g_epd_pins 296 128 .EPD_MODE_3C))
    (by
      show frame_bytes 296 128 ≤ (List.replicate 4736 0xAA).length
      rw [frame_bytes_296x128, List.length_replicate])).2 rfl rfl

/-- A full-frame paint reads only the first `frame_bytes` bytes of its buffer. -/
theorem display_buffer_congr (env : Env) (fuel : Nat) (b1 b2 : List Nat)
    (mode : epd_update_mode_t) (s : State)
    (h1 : frame_bytes s.dev.info.width s.dev.info.height ≤ b1.length)
    (h2 : frame_bytes s.dev.info.width s.dev.info.height ≤ b2.length)
    (h : b1.take (frame_bytes s.dev.info.width s.dev.info.height)
      = b2.take (frame_bytes s.dev.info.width s.dev.info.height)) :
    ssd1619_display_buffer env fuel .valid (some b1) mode s =
      ssd1619_display_buffer env fuel .valid (some b2) mode s := by
  rw [display_buffer_eq env fuel b1 mode s h1, display_buffer_eq env fuel b2 mode s h2,
    display_buffer_events, display_buffer_events, h]

/-- The Pixel Buffer length `ceil(width/8) * height` covers the bytes a
full-frame paint reads, as long as `width * height` fits in an `int`. -/
theorem pixel_buffer_covers_frame (width height : Nat)
    (h : width * height < 2147483648) :
    frame_bytes width height ≤ (width + 7) / 8 * height := by
  rw [frame_bytes_eq width height h]
  have h1 : width ≤ 8 * ((width + 7) / 8) := by omega
  have h2 : width * height ≤ 8 * ((width + 7) / 8) * height := Nat.mul_le_mul_right _ h1
  have h3 : 8 * ((width + 7) / 8) * height = 8 * ((width + 7) / 8 * height) := by
    rw [Nat.mul_assoc]
  omega

/-- C9: on a device with valid private state on which the scratch allocation
succeeds, `ssd1619_clear(dev, color)` is exactly (same outcome, same trace, same
final state) the `Full` paint, run once the scratch buffer is allocated, of any
buffer `B` of `n` bytes all equal to `0xFF` for `WHITE` and to `0x00`
otherwise (so for `BLACK`), `n` being at least the number of bytes a full
frame paint reads; the primary-plane bytes it streams are all that fill
byte. -/
theorem C9_clear_is_full_paint (env : Env) (fuel : Nat) (color : epd_color_t) (s : State)
    (n : Nat) (hpriv : s.dev.priv ≠ none) (halloc : env.alloc s.allocs = true)
    (hn : frame_bytes s.dev.info.width s.dev.info.height ≤ n) :
    ssd1619_clear env fuel .valid color s =
        ssd1619_display_buffer env fuel .valid
          (some (List.replicate n (if color = epd_color_t.EPD_COLOR_WHITE then 0xFF else 0x00)))
          .EPD_UPDATE_FULL (s.upd [] 0 1)
      ∧ ∃ rest, (ssd1619_clear env fuel .valid color s).state.trace =
          s.trace ++ (window_events 0 0 (toU16 ((s.dev.info.width : Int) - 1))
              (toU16 ((s.dev.info.height : Int) - 1)) ++ cursor_events 0 0
            ++ [.command 0x24,
                .dataBuffer (List.replicate (frame_bytes s.dev.info.width s.dev.info.height)
                  (if color = epd_color_t.EPD_COLOR_WHITE then 0xFF else 0x00))]
            ++ rest) := by
  have hfb : frame_bytes (s.upd [] 0 1).dev.info.width (s.upd [] 0 1).dev.info.height
      = frame_bytes s.dev.info.width s.dev.info.height := rfl
  have hclear : ssd1619_clear env fuel .valid color s =
      ssd1619_display_buffer env fuel .valid
        (some (List.replicate (frame_bytes s.dev.info.width s.dev.info.height)
          (if color = epd_color_t.EPD_COLOR_WHITE then 0xFF else 0x00)))
        .EPD_UPDATE_FULL (s.upd [] 0 1) := by
    unfold ssd1619_clear
    cases hp : s.dev.priv with
    | none => exact absurd hp hpriv
    | some pr => simp only [heap_alloc_eq, halloc]
  have hlen1 : frame_bytes (s.upd [] 0 1).dev.info.width (s.upd [] 0 1).dev.info.height ≤
      (List.replicate (frame_bytes s.dev.info.width s.dev.info.height)
        (if color = epd_color_t.EPD_COLOR_WHITE then 0xFF else 0x00)).length := by
    rw [hfb, List.length_replicate]
  refine ⟨?_, ?_⟩
  · rw [hclear]
    apply display_buffer_congr env fuel _ _ _ _ hlen1
    · rw [hfb, List.length_replicate]; exact hn
    · rw [hfb, List.take_replicate, List.take_replicate, Nat.min_self, Nat.min_eq_left hn]
  · obtain ⟨post, k, h, _⟩ := display_buffer_state env fuel _ .EPD_UPDATE_FULL
      (s.upd [] 0 1) hlen1
    rw [hclear, h]
    refine ⟨red_events s.dev.info.color_mode (env.alloc (s.upd [] 0 1).allocs)
      (frame_bytes s.dev.info.width s.dev.info.height)
      ++ [.command 0x22, .data (trigger_byte .EPD_UPDATE_FULL), .command 0x20] ++ post, ?_⟩
    simp only [upd_trace, upd_dev, display_buffer_events, List.take_replicate, Nat.min_self,
      List.append_nil, List.append_assoc]

/-- Witness for C9: `clear(WHITE)` on the initialized 296 x 128 device, against
the all-`0xFF` Pixel Buffer of `ceil(296/8) * 128` bytes. -/
theorem C9_clear_is_full_paint_witness :
    ssd1619_clear idle_env 1 .valid .EPD_COLOR_WHITE panel_296x128 =
        ssd1619_display_buffer idle_env 1 .valid
          (some (List.replicate ((296 + 7) / 8 * 128)
            (if epd_color_t.EPD_COLOR_WHITE = epd_color_t.EPD_COLOR_WHITE then 0xFF else 0x00)))
          .EPD_UPDATE_FULL (panel_296x128.upd [] 0 1)
      ∧ ∃ rest, (ssd1619_clear idle_env 1 .valid .EPD_COLOR_WHITE panel_296x128).state.trace =
          panel_296x128.trace ++ (window_events 0 0
              (toU16 ((panel_296x128.dev.info.width : Int) - 1))
              (toU16 ((panel_296x128.dev.info.height : Int) - 1)) ++ cursor_events 0 0
            ++ [.command 0x24,
                .dataBuffer (List.replicate
                  (frame_bytes panel_296x128.dev.info.width panel_296x128.dev.info.height)
                  (if epd_color_t.EPD_COLOR_WHITE = epd_color_t.EPD_COLOR_WHITE
                    then 0xFF else 0x00))]
            ++ rest) :=
  C9_clear_is_full_paint idle_env 1 .EPD_COLOR_WHITE panel_296x128 ((296 + 7) / 8 * 128)
    (by decide) rfl
    (by
      rw [panel_296x128_info.1, panel_296x128_info.2.1]
      exact pixel_buffer_covers_frame 296 128 (by decide))

/-! ## Initialization, sleep and wake-up -/

theorem spi_init_ok (env : Env) (s : State) (h : env.spi_init s.spiInits = ESP_OK) :
    epd_spi_init env s = (ESP_OK, spi_up s) := by
  unfold epd_spi_init
  rw [h, if_pos rfl]
  rfl

theorem init_gpio_eq (s : State) : init_gpio s = s.upd (gpio_events s.dev.pins) 0 0 := by
  unfold init_gpio gpio_events
  simp only [emit_eq, upd_upd, upd_dev]
  split <;> rfl

theorem reset_eq (s : State) :
    ssd1619_reset .valid s = .ret ESP_OK (s.upd (reset_events s.dev.pins) 0 0) := by
  simp only [ssd1619_reset, epd_delay_ms, emit_eq, upd_upd, upd_dev]
  rfl

theorem send_init_sequence_ret (env : Env) (fuel : Nat) (s : State) (n1 n2 : Nat)
    (h1 : ReadyAt env s.polls n1) (h2 : ReadyAt env (s.polls + (n1 + 1)) n2)
    (hf1 : n1 < fuel) (hf2 : n2 < fuel) :
    ssd1619_send_init_sequence env fuel s =
      .ret () (s.upd (init_sequence_events s.dev.info.width s.dev.info.height n1 n2)
        ((n1 + 1) + (n2 + 1)) 0) := by
  have h10 : ReadyAt env (s.polls + 0) n1 := h1
  unfold ssd1619_send_init_sequence
  simp only [epd_send_command, epd_send_data, epd_delay_ms, emit_eq, upd_upd, upd_dev,
    set_memory_area_eq, set_memory_pointer_eq]
  rw [wait_upd env 1 n1 fuel s _ _ _ h10 hf1, ret_bind]
  simp only [upd_upd, upd_dev, Nat.zero_add, Nat.add_zero]
  rw [wait_upd env 1 n2 fuel s _ _ _ h2 hf2]
  congr 1
  apply state_eq
  · rfl
  · simp [init_sequence_events, SSD1619_CMD_SW_RESET, SSD1619_CMD_DRIVER_OUTPUT_CONTROL,
      SSD1619_CMD_DATA_ENTRY_MODE, SSD1619_CMD_BORDER_WAVEFORM, SSD1619_CMD_TEMP_SENSOR,
      SSD1619_CMD_DISP_UPDATE_CTRL2, SSD1619_CMD_MASTER_ACTIVATION]
  · simp only [upd_polls]
  · simp
  · rfl

/-- A successful `ssd1619_init`, spelled out. -/
theorem init_ret (env : Env) (fuel : Nat) (s : State) (p : ssd1619_priv_t) (n1 n2 : Nat)
    (hp : s.dev.priv = some p) (hspi : env.spi_init s.spiInits = ESP_OK)
    (h1 : ReadyAt env s.polls n1) (h2 : ReadyAt env (s.polls + (n1 + 1)) n2)
    (hf1 : n1 < fuel) (hf2 : n2 < fuel) :
    ssd1619_init env fuel .valid s = .ret ESP_OK (init_final s n1 n2) := by
  unfold ssd1619_init
  simp only [hp, spi_init_ok env s hspi, ne_eq, not_true_eq_false, if_false, init_gpio_eq,
    reset_eq, ret_bind, upd_dev, upd_upd]
  have h1' : ReadyAt env ((spi_up s).upd (gpio_events (spi_up s).dev.pins
      ++ reset_events (spi_up s).dev.pins) (0 + 0) (0 + 0)).polls n1 := by
    simpa [spi_up] using h1
  have h2' : ReadyAt env (((spi_up s).upd (gpio_events (spi_up s).dev.pins
      ++ reset_events (spi_up s).dev.pins) (0 + 0) (0 + 0)).polls + (n1 + 1)) n2 := by
    simpa [spi_up] using h2
  rw [send_init_sequence_ret env fuel _ n1 n2 h1' h2' hf1 hf2, ret_bind]
  congr 1
  apply state_eq
  · simp [set_initialized, init_final, spi_up]
  · simp [set_initialized, init_final, spi_up, init_events]
  · simp [set_initialized, init_final, spi_up]
  · simp [set_initialized, init_final, spi_up]
  · simp [set_initialized, init_final, spi_up]

/-! ## Claims on error handling -/

/-- C11 fails on the code for `invert`: with a null device pointer
`ssd1619_invert` returns `ESP_OK`, not `ESP_ERR_INVALID_ARG`.  The ten other
operations (`init`, `reset`, `clear`, `display_buffer`, `display_partial`,
`sleep`, `wakeup`, `set_rotation`, `get_info`, `deinit`) do return
`ESP_ERR_INVALID_ARG` in the unchanged state, so without any transport
call. -/
theorem C11_null_handle (env : Env) (fuel : Nat) (color : epd_color_t)
    (buffer : Option (List Nat)) (mode : epd_update_mode_t) (x y width height : Nat)
    (rotation : Nat) (invert : Bool) (info : Option epd_info_t) (s : State) :
    ssd1619_invert .null invert s = .ret ESP_OK s
      ∧ ESP_OK ≠ ESP_ERR_INVALID_ARG
      ∧ ssd1619_init env fuel .null s = .ret ESP_ERR_INVALID_ARG s
      ∧ ssd1619_reset .null s = .ret ESP_ERR_INVALID_ARG s
      ∧ ssd1619_clear env fuel .null color s = .ret ESP_ERR_INVALID_ARG s
      ∧ ssd1619_display_buffer env fuel .null buffer mode s = .ret ESP_ERR_INVALID_ARG s
      ∧ ssd1619_display_partial env fuel .null buffer x y width height s
          = .ret ESP_ERR_INVALID_ARG s
      ∧ ssd1619_sleep env .null s = .ret ESP_ERR_INVALID_ARG s
      ∧ ssd1619_wakeup env fuel .null s = .ret ESP_ERR_INVALID_ARG s
      ∧ ssd1619_set_rotation .null rotation s = .ret ESP_ERR_INVALID_ARG s
      ∧ ssd1619_get_info .null info s = .ret (ESP_ERR_INVALID_ARG, info) s
      ∧ ssd1619_deinit env .null s = .ret ESP_ERR_INVALID_ARG s := by
  refine ⟨rfl, by decide, rfl, rfl, rfl, ?_, ?_, rfl, rfl, rfl, rfl, rfl⟩
  · cases buffer <;> rfl
  · cases buffer <;> rfl

theorem no_heap_ready (k : Nat) : ReadyAt no_heap_env k 0 :=
  ⟨fun i hi => absurd hi (Nat.not_lt_zero i), rfl⟩

/-- What `ssd1619_display_buffer` does on a three-colour device when the
`calloc` of the secondary-plane scratch buffer fails: the block guarded by
`if (red_buffer)` is skipped and the function carries on to the update
trigger. -/
theorem display_buffer_failed_alloc (env : Env) (fuel : Nat) (buf : List Nat)
    (mode : epd_update_mode_t) (s : State) (n : Nat)
    (hc : s.dev.info.color_mode = epd_color_mode_t.EPD_MODE_3C)
    (ha : env.alloc s.allocs = false)
    (hlen : frame_bytes s.dev.info.width s.dev.info.height ≤ buf.length)
    (hr : ReadyAt env s.polls n) (hf : n < fuel) :
    ∃ s2, ssd1619_display_buffer env fuel .valid (some buf) mode s = .ret ESP_OK s2
      ∧ s2.trace = s.trace ++ (window_events 0 0 (toU16 ((s.dev.info.width : Int) - 1))
            (toU16 ((s.dev.info.height : Int) - 1)) ++ cursor_events 0 0
          ++ [.command 0x24,
              .dataBuffer (buf.take (frame_bytes s.dev.info.width s.dev.info.height)),
              .command 0x22, .data (trigger_byte mode), .command 0x20])
          ++ poll_events 10 n
      ∧ s2.dev = s.dev
      ∧ s2.allocs = s.allocs + 1 := by
  refine ⟨_, display_buffer_ret env fuel buf mode s n hlen hr hf, ?_, rfl, ?_⟩
  · simp [display_buffer_final, display_buffer_events, red_events, ha]
  · simp [display_buffer_final, display_buffer_allocs, hc]

/-- C12 fails on the code: on the 296 x 128 three-colour device, with the
`calloc` of the secondary-plane scratch buffer failing,
`ssd1619_display_buffer` returns `ESP_OK`, not `ESP_ERR_NO_MEM`: it has sent
the primary plane, no write-secondary-plane command `0x26`, and still the
update trigger `0x22 0xC7` and master activation `0x20`, so the panel is
refreshed with a secondary plane that was never written.  On the same device
and heap the sibling `ssd1619_clear`, whose `malloc` fails, returns
`ESP_ERR_NO_MEM` without sending anything. -/
theorem C12_failed_alloc_returns_ok :
    no_heap_env.alloc (boot (new_device g_epd_pins 296 128 .EPD_MODE_3C)).allocs = false
      ∧ (ssd1619_display_buffer no_heap_env 1 .valid (some (List.replicate 4736 0xAA))
          .EPD_UPDATE_FULL (boot (new_device g_epd_pins 296 128 .EPD_MODE_3C))).val?
        = some ESP_OK
      ∧ ESP_OK ≠ ESP_ERR_NO_MEM
      ∧ (ssd1619_display_buffer no_heap_env 1 .valid (some (List.replicate 4736 0xAA))
          .EPD_UPDATE_FULL (boot (new_device g_epd_pins 296 128 .EPD_MODE_3C))).state.trace
        = [.command 0x44, .data 0x00, .data 0x24,
           .command 0x45, .data 0x00, .data 0x00, .data 0x7F, .data 0x00,
           .command 0x4E, .data 0x00, .command 0x4F, .data 0x00, .data 0x00,
           .command 0x24, .dataBuffer (List.replicate 4736 0xAA),
           .command 0x22, .data 0xC7, .command 0x20, .isBusy false]
      ∧ ssd1619_clear no_heap_env 1 .valid .EPD_COLOR_WHITE
          (boot (new_device g_epd_pins 296 128 .EPD_MODE_3C))
        = .ret ESP_ERR_NO_MEM
            ((boot (new_device g_epd_pins 296 128 .EPD_MODE_3C)).upd [] 0 1)
      ∧ (ssd1619_clear no_heap_env 1 .valid .EPD_COLOR_WHITE
          (boot (new_device g_epd_pins 296 128 .EPD_MODE_3C))).state.trace = [] := by
  have hlen : frame_bytes (boot (new_device g_epd_pins 296 128 .EPD_MODE_3C)).dev.info.width
      (boot (new_device g_epd_pins 296 128 .EPD_MODE_3C)).dev.info.height
      ≤ (List.replicate 4736 0xAA).length := by
    show frame_bytes 296 128 ≤ (List.replicate 4736 0xAA).length
    rw [frame_bytes_296x128, List.length_replicate]
  obtain ⟨s2, h, ht, _, _⟩ := display_buffer_failed_alloc no_heap_env 1
    (List.replicate 4736 0xAA) .EPD_UPDATE_FULL
    (boot (new_device g_epd_pins 296 128 .EPD_MODE_3C)) 0 rfl rfl hlen
    (no_heap_ready _) (by decide)
  have hclear : ssd1619_clear no_heap_env 1 .valid .EPD_COLOR_WHITE
      (boot (new_device g_epd_pins 296 128 .EPD_MODE_3C))
      = .ret ESP_ERR_NO_MEM
          ((boot (new_device g_epd_pins 296 128 .EPD_MODE_3C)).upd [] 0 1) := by
    unfold ssd1619_clear
    simp only [heap_alloc_eq]
    rfl
  refine ⟨rfl, ?_, by decide, ?_, hclear, ?_⟩
  · rw [h]
    rfl
  · rw [h]
    show s2.trace = _
    rw [ht]
    show ([] : List Event) ++ (window_events 0 0 (toU16 (((296 : Nat) : Int) - 1))
        (toU16 (((128 : Nat) : Int) - 1)) ++ cursor_events 0 0
      ++ [.command 0x24,
          .dataBuffer ((List.replicate 4736 0xAA).take (frame_bytes 296 128)),
          .command 0x22, .data (trigger_byte .EPD_UPDATE_FULL), .command 0x20])
      ++ poll_events 10 0 = _
    rw [full_window_296x128, frame_bytes_296x128, List.take_replicate, Nat.min_self]
    rfl
  · rw [hclear]
    rfl

/-- C14: on a device with valid private state, `ssd1619_set_rotation` with any
`quarter_turns` (so every value 0..255) returns `ESP_OK`, records
`rotation = quarter_turns mod 4`, swaps width and height when `quarter_turns`
is odd and leaves both when it is even, and makes no transport call;
`ssd1619_get_info` then reports the resulting information. -/
theorem C14_set_rotation (rotation : Nat) (s : State) (p : ssd1619_priv_t)
    (info : epd_info_t) (hp : s.dev.priv = some p) :
    ∃ s2, ssd1619_set_rotation .valid rotation s = .ret ESP_OK s2
      ∧ s2.dev.priv = some { p with rotation := rotation % 4 }
      ∧ s2.dev.info.width
          = (if rotation % 2 = 1 then s.dev.info.height else s.dev.info.width)
      ∧ s2.dev.info.height
          = (if rotation % 2 = 1 then s.dev.info.width else s.dev.info.height)
      ∧ s2.trace = s.trace
      ∧ ssd1619_get_info .valid (some info) s2 = .ret (ESP_OK, some s2.dev.info) s2 := by
  unfold ssd1619_set_rotation
  simp only [hp, Nat.and_one_is_mod]
  rcases Nat.mod_two_eq_zero_or_one rotation with h | h
  · rw [h]
    exact ⟨_, rfl, rfl, rfl, rfl, rfl, rfl⟩
  · rw [h]
    exact ⟨_, rfl, rfl, rfl, rfl, rfl, rfl⟩

/-- Witness for C14: `set_rotation(1)` on the initialized 296 x 128 device makes
`get_info` report width 128 and height 296. -/
theorem C14_set_rotation_witness :
    ∃ s2 i, ssd1619_set_rotation .valid 1 panel_296x128 = .ret ESP_OK s2
      ∧ ssd1619_get_info .valid (some panel_296x128.dev.info) s2 = .ret (ESP_OK, some i) s2
      ∧ i.width = 128 ∧ i.height = 296
      ∧ s2.trace = panel_296x128.trace := by
  obtain ⟨s2, h1, _, hw, hh, ht, hi⟩ := C14_set_rotation 1 panel_296x128
    { lut_full := List.replicate 30 0, lut_partial := List.replicate 30 0, rotation := 0,
      initialized := true }
    panel_296x128.dev.info (by decide)
  refine ⟨s2, s2.dev.info, h1, hi, ?_, ?_, ht⟩
  · rw [hw, if_pos (by decide), panel_296x128_info.2.1]
  · rw [hh, if_pos (by decide), panel_296x128_info.1]

/-- C15 fails on the code: on the device created with width 296 and height
128, `set_rotation(1)` makes the size 128 x 296, and the following
`set_rotation(2)` records rotation 2 but leaves the size at 128 x 296 instead
of restoring 296 x 128. -/
theorem C15_rotation_2_keeps_swapped_size :
    ∃ s1 s2,
      ssd1619_set_rotation .valid 1 (boot (new_device g_epd_pins 296 128 .EPD_MODE_1C))
          = .ret ESP_OK s1
      ∧ s1.dev.info.width = 128 ∧ s1.dev.info.height = 296
      ∧ ssd1619_set_rotation .valid 2 s1 = .ret ESP_OK s2
      ∧ s2.dev.info.width = 128 ∧ s2.dev.info.height = 296
      ∧ s2.dev.priv.map (fun p => p.rotation) = some 2 :=
  ⟨_, _, rfl, rfl, rfl, rfl, rfl, rfl, rfl⟩

/-! ## Claims on initialization -/

theorem lo_byte (H : Nat) (h1 : 1 ≤ H) : toU8 ((H : Int) - 1) = (H - 1) % 256 := by
  unfold toU8
  omega

theorem hi_byte (H : Nat) (h1 : 1 ≤ H) (h2 : H ≤ 65535) :
    toU8 (((H : Int) - 1) >>> 8) = (H - 1) / 256 := by
  have e : ((H : Int) - 1) = ((H - 1 : Nat) : Int) := by omega
  have e2 : ((H - 1 : Nat) : Int) >>> (8 : Int) = (((H - 1) >>> 8 : Nat) : Int) :=
    Int.shiftRight_coe_nat (H - 1) 8
  rw [e, e2, Nat.shiftRight_eq_div_pow]
  unfold toU8
  omega

/-- C16: on a device with valid private state, when the bus comes up at both
calls and the busy input clears in each of the four waits, `ssd1619_init`
called twice returns `ESP_OK` both times; each call adds to the trace the
whole sequence (bus bring-up, GPIO set-up, reset pulse, init command
sequence), the second exactly as the first up to the numbers of busy polls;
the device ends with the initialized flag set and the same information and
pins as before the calls. -/
theorem C16_init_twice (env : Env) (fuel : Nat) (s : State) (p : ssd1619_priv_t)
    (n1 n2 n3 n4 : Nat)
    (hp : s.dev.priv = some p)
    (hspi1 : env.spi_init s.spiInits = ESP_OK)
    (hspi2 : env.spi_init (s.spiInits + 1) = ESP_OK)
    (h1 : ReadyAt env s.polls n1) (h2 : ReadyAt env (s.polls + (n1 + 1)) n2)
    (h3 : ReadyAt env (s.polls + ((n1 + 1) + (n2 + 1))) n3)
    (h4 : ReadyAt env (s.polls + ((n1 + 1) + (n2 + 1)) + (n3 + 1)) n4)
    (hf1 : n1 < fuel) (hf2 : n2 < fuel) (hf3 : n3 < fuel) (hf4 : n4 < fuel) :
    ∃ s1 s2, ssd1619_init env fuel .valid s = .ret ESP_OK s1
      ∧ ssd1619_init env fuel .valid s1 = .ret ESP_OK s2
      ∧ s1.trace = s.trace ++ ([.spiInit] ++ gpio_events s.dev.pins ++ reset_events s.dev.pins
          ++ init_sequence_events s.dev.info.width s.dev.info.height n1 n2)
      ∧ s2.trace = s1.trace ++ ([.spiInit] ++ gpio_events s.dev.pins ++ reset_events s.dev.pins
          ++ init_sequence_events s.dev.info.width s.dev.info.height n3 n4)
      ∧ s1.dev.priv = some { p with initialized := true }
      ∧ s2.dev.priv = some { p with initialized := true }
      ∧ s2.dev.info = s.dev.info
      ∧ s2.dev.pins = s.dev.pins := by
  have hp1 : (init_final s n1 n2).dev.priv = some { p with initialized := true } := by
    simp [init_final, hp]
  refine ⟨init_final s n1 n2, init_final (init_final s n1 n2) n3 n4,
    init_ret env fuel s p n1 n2 hp hspi1 h1 h2 hf1 hf2,
    init_ret env fuel (init_final s n1 n2) _ n3 n4 hp1 hspi2 h3 h4 hf3 hf4,
    rfl, rfl, hp1, ?_, rfl, rfl⟩
  simp [init_final, hp]

/-- Witness for C16: the freshly created 296 x 128 device, a controller that
is never busy. -/
theorem C16_init_twice_witness :
    ∃ s1 s2, ssd1619_init idle_env 1 .valid
        (boot (new_device g_epd_pins 296 128 .EPD_MODE_1C)) = .ret ESP_OK s1
      ∧ ssd1619_init idle_env 1 .valid s1 = .ret ESP_OK s2
      ∧ s1.trace = (boot (new_device g_epd_pins 296 128 .EPD_MODE_1C)).trace
          ++ ([.spiInit] ++ gpio_events g_epd_pins ++ reset_events g_epd_pins
            ++ init_sequence_events 296 128 0 0)
      ∧ s2.trace = s1.trace ++ ([.spiInit] ++ gpio_events g_epd_pins
            ++ reset_events g_epd_pins ++ init_sequence_events 296 128 0 0)
      ∧ s1.dev.priv = some
          { lut_full := List.replicate 30 0, lut_partial := List.replicate 30 0,
            rotation := 0, initialized := true }
      ∧ s2.dev.priv = some
          { lut_full := List.replicate 30 0, lut_partial := List.replicate 30 0,
            rotation := 0, initialized := true }
      ∧ s2.dev.info = (boot (new_device g_epd_pins 296 128 .EPD_MODE_1C)).dev.info
      ∧ s2.dev.pins = (boot (new_device g_epd_pins 296 128 .EPD_MODE_1C)).dev.pins :=
  C16_init_twice idle_env 1 (boot (new_device g_epd_pins 296 128 .EPD_MODE_1C))
    { lut_full := List.replicate 30 0, lut_partial := List.replicate 30 0, rotation := 0,
      initialized := false }
    0 0 0 0 rfl rfl rfl (idle_ready _) (idle_ready _) (idle_ready _) (idle_ready _)
    (by decide) (by decide) (by decide) (by decide)

/-- C18: on a device of height `H` in 1..65535 with valid private state, when
the bus comes up and the busy input clears in both waits, `ssd1619_init`
returns `ESP_OK` and what it sends after the reset pulse is, in order:
software reset `0x12` (then a 10 ms delay and the first busy wait);
driver-output control `0x01` with `((H-1) & 0xFF, ((H-1) >> 8) & 0xFF, 0x00)`,
where low + 256 * high = H - 1; data-entry mode `0x11` with `0x03`; the RAM
window of the full panel and the cursor at (0,0); border waveform `0x3C` with
`0x05`; temperature sensor `0x1A` with `0x80`; display-update-control-2 `0x22`
with `0xC0`; master activation `0x20` (then the second busy wait). -/
theorem C18_init_sequence (env : Env) (fuel : Nat) (s : State) (p : ssd1619_priv_t)
    (n1 n2 : Nat)
    (hH1 : 1 ≤ s.dev.info.height) (hH2 : s.dev.info.height ≤ 65535)
    (hp : s.dev.priv = some p) (hspi : env.spi_init s.spiInits = ESP_OK)
    (h1 : ReadyAt env s.polls n1) (h2 : ReadyAt env (s.polls + (n1 + 1)) n2)
    (hf1 : n1 < fuel) (hf2 : n2 < fuel) :
    ∃ s2, ssd1619_init env fuel .valid s = .ret ESP_OK s2
      ∧ s2.trace = s.trace
          ++ ([.spiInit] ++ gpio_events s.dev.pins ++ reset_events s.dev.pins)
          ++ ([.command 0x12, .delayMs 10] ++ poll_events 1 n1
            ++ [.command 0x01, .data ((s.dev.info.height - 1) % 256),
                .data ((s.dev.info.height - 1) / 256), .data 0x00,
                .command 0x11, .data 0x03]
            ++ window_events 0 0 (toU16 ((s.dev.info.width : Int) - 1))
                (s.dev.info.height - 1)
            ++ cursor_events 0 0
            ++ [.command 0x3C, .data 0x05, .command 0x1A, .data 0x80,
                .command 0x22, .data 0xC0, .command 0x20]
            ++ poll_events 1 n2)
      ∧ (s.dev.info.height - 1) % 256 + 256 * ((s.dev.info.height - 1) / 256)
          = s.dev.info.height - 1
      ∧ (s.dev.info.height - 1) % 256 = (s.dev.info.height - 1) &&& 0xFF
      ∧ (s.dev.info.height - 1) / 256 = ((s.dev.info.height - 1) >>> 8) &&& 0xFF := by
  have hy : toU16 ((s.dev.info.height : Int) - 1) = s.dev.info.height - 1 := by
    unfold toU16
    omega
  refine ⟨_, init_ret env fuel s p n1 n2 hp hspi h1 h2 hf1 hf2, ?_, by omega, ?_, ?_⟩
  · simp only [init_final, init_events, init_sequence_events, lo_byte _ hH1,
      hi_byte _ hH1 hH2, hy, List.append_assoc]
  · rw [and_0xFF]
  · rw [and_0xFF, shr_8]
    omega

/-- Witness for C18: the freshly created 296 x 128 device; the driver-output
control bytes are `(0x7F, 0x00, 0x00)`. -/
theorem C18_init_sequence_witness :
    (128 - 1) % 256 = 0x7F ∧ (128 - 1) / 256 = 0x00 ∧
    ∃ s2, ssd1619_init idle_env 1 .valid
        (boot (new_device g_epd_pins 296 128 .EPD_MODE_1C)) = .ret ESP_OK s2
      ∧ s2.trace = (boot (new_device g_epd_pins 296 128 .EPD_MODE_1C)).trace
          ++ ([.spiInit] ++ gpio_events g_epd_pins ++ reset_events g_epd_pins)
          ++ ([.command 0x12, .delayMs 10] ++ poll_events 1 0
            ++ [.command 0x01, .data ((128 - 1) % 256), .data ((128 - 1) / 256), .data 0x00,
                .command 0x11, .data 0x03]
            ++ window_events 0 0 (toU16 (((296 : Nat) : Int) - 1)) (128 - 1)
            ++ cursor_events 0 0
            ++ [.command 0x3C, .data 0x05, .command 0x1A, .data 0x80,
                .command 0x22, .data 0xC0, .command 0x20]
            ++ poll_events 1 0)
      ∧ (128 - 1) % 256 + 256 * ((128 - 1) / 256) = 128 - 1
      ∧ (128 - 1) % 256 = (128 - 1) &&& 0xFF
      ∧ (128 - 1) / 256 = ((128 - 1) >>> 8) &&& 0xFF :=
  ⟨by decide, by decide,
   C18_init_sequence idle_env 1 (boot (new_device g_epd_pins 296 128 .EPD_MODE_1C))
    { lut_full := List.replicate 30 0, lut_partial := List.replicate 30 0, rotation := 0,
      initialized := false }
    0 0 (by decide) (by decide) rfl rfl (idle_ready _) (idle_ready _) (by decide) (by decide)⟩

/-! ## Claims on sleep, wake-up and the frame of the operations -/

theorem sleep_eq (env : Env) (s : State) :
    ssd1619_sleep env .valid s =
      .ret ESP_OK (s.upd [.command 0x10, .data 0x01,
        .taskDelay (100 / env.portTICK_PERIOD_MS)] 0 0) := by
  simp only [ssd1619_sleep, epd_send_command, epd_send_data, vTaskDelay, emit_eq, upd_upd]
  rfl

theorem sleep_dev (env : Env) (dev : DevPtr) (s : State) :
    (ssd1619_sleep env dev s).state.dev = s.dev := by
  cases dev with
  | null => rfl
  | valid => rw [sleep_eq]; rfl

theorem reset_dev (dev : DevPtr) (s : State) : (ssd1619_reset dev s).state.dev = s.dev :=
  reaches_dev (reset_reaches dev s)

theorem display_buffer_dev (env : Env) (fuel : Nat) (dev : DevPtr)
    (buffer : Option (List Nat)) (mode : epd_update_mode_t) (s : State) :
    (ssd1619_display_buffer env fuel dev buffer mode s).state.dev = s.dev := by
  cases dev with
  | null => cases buffer <;> rfl
  | valid =>
    cases buffer with
    | none => rfl
    | some buf => rw [reaches_dev (display_buffer_reaches env fuel buf mode s), upd_dev]

theorem display_partial_dev (env : Env) (fuel : Nat) (dev : DevPtr)
    (buffer : Option (List Nat)) (x y width height : Nat) (s : State) :
    ( ssd1619_display_partial env fuel dev buffer x y width height s).state.dev = s.dev := by
  cases dev with
  | null => cases buffer <;> rfl
  | valid =>
    cases buffer with
    | none => rfl
    | some buf =>
      rw [reaches_dev (display_partial_reaches env fuel buf x y width height s), upd_dev]

theorem clear_dev (env : Env) (fuel : Nat) (dev : DevPtr) (color : epd_color_t) (s : State) :
    (ssd1619_clear env fuel dev color s).state.dev = s.dev := by
  cases dev with
  | null => rfl
  | valid =>
    unfold ssd1619_clear
    cases hp : s.dev.priv with
    | none => rfl
    | some pr =>
      simp only [heap_alloc_eq]
      cases env.alloc s.allocs with
      | false => rfl
      | true =>
        simp only
        rw [display_buffer_dev, upd_dev]

theorem wakeup_frame (env : Env) (fuel : Nat) (dev : DevPtr) (s : State) :
    (ssd1619_wakeup env fuel dev s).state.dev.info = s.dev.info
      ∧ (ssd1619_wakeup env fuel dev s).state.dev.pins = s.dev.pins := by
  cases dev with
  | null => exact ⟨rfl, rfl⟩
  | valid =>
    unfold ssd1619_wakeup
    rw [reset_eq, ret_bind]
    exact init_frame env fuel .valid _

theorem set_rotation_frame (dev : DevPtr) (rotation : Nat) (s : State) :
    (ssd1619_set_rotation dev rotation s).state.dev.info.type = s.dev.info.type
      ∧ (ssd1619_set_rotation dev rotation s).state.dev.info.chip_name = s.dev.info.chip_name
      ∧ (ssd1619_set_rotation dev rotation s).state.dev.info.color_mode
          = s.dev.info.color_mode
      ∧ (ssd1619_set_rotation dev rotation s).state.dev.info.capabilities
          = s.dev.info.capabilities
      ∧ (ssd1619_set_rotation dev rotation s).state.dev.info.version = s.dev.info.version
      ∧ (ssd1619_set_rotation dev rotation s).state.dev.pins = s.dev.pins := by
  cases dev with
  | null => exact ⟨rfl, rfl, rfl, rfl, rfl, rfl⟩
  | valid =>
    unfold ssd1619_set_rotation
    cases hp : s.dev.priv with
    | none => exact ⟨rfl, rfl, rfl, rfl, rfl, rfl⟩
    | some pr =>
      simp only
      split <;> exact ⟨rfl, rfl, rfl, rfl, rfl, rfl⟩

theorem get_info_state (dev : DevPtr) (info : Option epd_info_t) (s : State) :
    (ssd1619_get_info dev info s).state = s := by
  cases dev <;> cases info <;> rfl

/-- Every outcome of `ssd1619_init` only extends the trace. -/
theorem init_trace_grows (env : Env) (fuel : Nat) (dev : DevPtr) (s : State) :
    ∃ es, (ssd1619_init env fuel dev s).state.trace = s.trace ++ es := by
  cases dev with
  | null => exact ⟨[], (List.append_nil _).symm⟩
  | valid =>
    unfold ssd1619_init
    cases hp : s.dev.priv with
    | none => exact ⟨[], (List.append_nil _).symm⟩
    | some pr =>
      have hspi : ∃ es, (epd_spi_init env s).2.trace = s.trace ++ es := by
        unfold epd_spi_init
        by_cases he : env.spi_init s.spiInits = ESP_OK
        · simp only [he, if_true]
          exact ⟨[.spiInit], rfl⟩
        · simp only [he, if_false]
          exact ⟨[.spiInit], rfl⟩
      cases hq : epd_spi_init env s with
      | mk err s1 =>
        rw [hq] at hspi
        obtain ⟨e0, he0⟩ := hspi
        simp only at he0 ⊢
        by_cases he : err = ESP_OK
        · simp only [he, ne_eq, not_true_eq_false, if_false]
          apply bind_state_inv (fun t => ∃ es, t.trace = s.trace ++ es)
          · obtain ⟨e1, he1⟩ := reaches_trace
              (reaches_trans (init_gpio_reaches s1) (reset_reaches .valid (init_gpio s1)))
            exact ⟨e0 ++ e1, by rw [he1, he0, List.append_assoc]⟩
          · intro _ s2 ⟨e2, he2⟩
            apply bind_state_inv (fun t => ∃ es, t.trace = s.trace ++ es)
            · obtain ⟨e3, he3⟩ := reaches_trace (send_init_sequence_reaches env fuel s2)
              exact ⟨e2 ++ e3, by rw [he3, he2, List.append_assoc]⟩
            · intro _ s3 h3
              exact h3
        · simp only [he, ne_eq, not_false_eq_true, if_true, Res.state]
          exact ⟨e0, he0⟩

/-- C17: whatever their arguments and outcome, `init`, `reset`, `clear`,
`display_buffer`, `display_partial`, `sleep`, `wakeup`, `invert` and `get_info`
leave the device information and the pins exactly as they were;
`set_rotation` leaves the pins and every information field other than width
and height (chip type, chip name, colour mode, capability flags, version);
and `sleep` followed by `wakeup` leaves the whole information, so the
capability flags and the dimensions, as before sleeping. -/
theorem C17_info_and_pins_frame (env : Env) (fuel : Nat) (dev : DevPtr)
    (color : epd_color_t) (buffer : Option (List Nat)) (mode : epd_update_mode_t)
    (x y width height rotation : Nat) (invert : Bool) (info : Option epd_info_t)
    (s : State) :
    ((ssd1619_init env fuel dev s).state.dev.info = s.dev.info
        ∧ (ssd1619_init env fuel dev s).state.dev.pins = s.dev.pins)
      ∧ ((ssd1619_reset dev s).state.dev.info = s.dev.info
        ∧ (ssd1619_reset dev s).state.dev.pins = s.dev.pins)
      ∧ ((ssd1619_clear env fuel dev color s).state.dev.info = s.dev.info
        ∧ (ssd1619_clear env fuel dev color s).state.dev.pins = s.dev.pins)
      ∧ ((ssd1619_display_buffer env fuel dev buffer mode s).state.dev.info = s.dev.info
        ∧ (ssd1619_display_buffer env fuel dev buffer mode s).state.dev.pins = s.dev.pins)
      ∧ (( ssd1619_display_partial env fuel dev buffer x y width height s).state.dev.info
          = s.dev.info
        ∧ ( ssd1619_display_partial env fuel dev buffer x y width height s).state.dev.pins
          = s.dev.pins)
      ∧ ((ssd1619_sleep env dev s).state.dev.info = s.dev.info
        ∧ (ssd1619_sleep env dev s).state.dev.pins = s.dev.pins)
      ∧ ((ssd1619_wakeup env fuel dev s).state.dev.info = s.dev.info
        ∧ (ssd1619_wakeup env fuel dev s).state.dev.pins = s.dev.pins)
      ∧ ((ssd1619_invert dev invert s).state.dev.info = s.dev.info
        ∧ (ssd1619_invert dev invert s).state.dev.pins = s.dev.pins)
      ∧ ((ssd1619_get_info dev info s).state.dev.info = s.dev.info
        ∧ (ssd1619_get_info dev info s).state.dev.pins = s.dev.pins)
      ∧ ((ssd1619_set_rotation dev rotation s).state.dev.info.type = s.dev.info.type
        ∧ (ssd1619_set_rotation dev rotation s).state.dev.info.chip_name
            = s.dev.info.chip_name
        ∧ (ssd1619_set_rotation dev rotation s).state.dev.info.color_mode
            = s.dev.info.color_mode
        ∧ (ssd1619_set_rotation dev rotation s).state.dev.info.capabilities
            = s.dev.info.capabilities
        ∧ (ssd1619_set_rotation dev rotation s).state.dev.info.version = s.dev.info.version
        ∧ (ssd1619_set_rotation dev rotation s).state.dev.pins = s.dev.pins)
      ∧ (ssd1619_wakeup env fuel dev (ssd1619_sleep env dev s).state).state.dev.info
          = s.dev.info := by
  refine ⟨init_frame env fuel dev s, ?_, ?_, ?_, ?_, ?_, wakeup_frame env fuel dev s,
    ⟨rfl, rfl⟩, ?_, set_rotation_frame dev rotation s, ?_⟩
  · rw [reset_dev]; exact ⟨rfl, rfl⟩
  · rw [clear_dev]; exact ⟨rfl, rfl⟩
  · rw [display_buffer_dev]; exact ⟨rfl, rfl⟩
  · rw [display_partial_dev]; exact ⟨rfl, rfl⟩
  · rw [sleep_dev]; exact ⟨rfl, rfl⟩
  · rw [get_info_state]; exact ⟨rfl, rfl⟩
  · rw [(wakeup_frame env fuel dev _).1, sleep_dev]

/-- C19: for a non-null device `ssd1619_wakeup` is `reset` followed by
`initialize`: its outcome (return value and final state) is that of
`ssd1619_init` run in the state `ssd1619_reset` left, and its trace is the
trace of the reset pulse followed by what `ssd1619_init` adds. -/
theorem C19_wakeup_is_reset_then_init (env : Env) (fuel : Nat) (s : State) :
    ssd1619_wakeup env fuel .valid s = wakeup_spec env fuel s
      ∧ ssd1619_reset .valid s = .ret ESP_OK (ssd1619_reset .valid s).state
      ∧ (ssd1619_reset .valid s).state.trace = s.trace ++ reset_events s.dev.pins
      ∧ (ssd1619_wakeup env fuel .valid s).val?
          = (ssd1619_init env fuel .valid (ssd1619_reset .valid s).state).val?
      ∧ (ssd1619_wakeup env fuel .valid s).state
          = (ssd1619_init env fuel .valid (ssd1619_reset .valid s).state).state
      ∧ ∃ es, (ssd1619_init env fuel .valid (ssd1619_reset .valid s).state).state.trace
            = (ssd1619_reset .valid s).state.trace ++ es
          ∧ (ssd1619_wakeup env fuel .valid s).state.trace
            = s.trace ++ reset_events s.dev.pins ++ es := by
  have hw : ssd1619_wakeup env fuel .valid s = wakeup_spec env fuel s := by
    unfold ssd1619_wakeup wakeup_spec
    rw [reset_eq, ret_bind]
    rfl
  refine ⟨hw, ?_, ?_, ?_, ?_, ?_⟩
  · rw [reset_eq]; rfl
  · rw [reset_eq]; rfl
  · rw [hw]; rfl
  · rw [hw]; rfl
  · obtain ⟨es, h⟩ := init_trace_grows env fuel .valid (ssd1619_reset .valid s).state
    refine ⟨es, h, ?_⟩
    rw [hw]
    unfold wakeup_spec
    rw [h, reset_eq]
    rfl

/-- C20: for a non-null device `ssd1619_sleep` returns `ESP_OK` after exactly
three calls: the deep-sleep command `0x10`, one data byte `0x01`, and
`vTaskDelay(100 / portTICK_PERIOD_MS)`, the settle delay of 100 ms in ticks
(100 ms less the remainder of the division by the tick period); the device
information, pins and private state are unchanged. -/
theorem C20_sleep (env : Env) (s : State) :
    ssd1619_sleep env .valid s = .ret ESP_OK (ssd1619_sleep env .valid s).state
      ∧ (ssd1619_sleep env .valid s).state.trace = s.trace ++
          [.command 0x10, .data 0x01, .taskDelay (100 / env.portTICK_PERIOD_MS)]
      ∧ 100 / env.portTICK_PERIOD_MS * env.portTICK_PERIOD_MS
          + 100 % env.portTICK_PERIOD_MS = 100
      ∧ (ssd1619_sleep env .valid s).state.dev.info = s.dev.info
      ∧ (ssd1619_sleep env .valid s).state.dev.pins = s.dev.pins
      ∧ (ssd1619_sleep env .valid s).state.dev.priv = s.dev.priv := by
  refine ⟨?_, ?_, Nat.div_add_mod' 100 env.portTICK_PERIOD_MS, ?_, ?_, ?_⟩
  · rw [sleep_eq]; rfl
  · rw [sleep_eq]; rfl
  · rw [sleep_dev]
  · rw [sleep_dev]
  · rw [sleep_dev]

/-! ## Claims on reset, deinitialization and failed bring-up -/

/-- C21: for a non-null device `ssd1619_reset` returns `ESP_OK` after exactly
five calls: reset line low, 10 ms delay, reset line high, 10 ms delay, 100 ms
delay; it sends no command or data byte, does not poll the busy input and
leaves the device object unchanged. -/
theorem C21_reset_is_pure_hardware (s : State) :
    ssd1619_reset .valid s = .ret ESP_OK (ssd1619_reset .valid s).state
      ∧ (ssd1619_reset .valid s).state.trace = s.trace ++
          [.gpioLevel s.dev.pins.rst_pin 0, .delayMs 10,
           .gpioLevel s.dev.pins.rst_pin 1, .delayMs 10, .delayMs 100]
      ∧ (ssd1619_reset .valid s).state.dev = s.dev
      ∧ (ssd1619_reset .valid s).state.polls = s.polls
      ∧ (ssd1619_reset .valid s).state.allocs = s.allocs
      ∧ (ssd1619_reset .valid s).state.spiInits = s.spiInits := by
  rw [reset_eq]
  exact ⟨rfl, rfl, rfl, rfl, rfl, rfl⟩

theorem release_bus_spec (s : State) :
    (release_bus s).dev.spi_dev = none ∧ (release_bus s).dev.priv = s.dev.priv
      ∧ (release_bus s).dev.info = s.dev.info ∧ (release_bus s).dev.pins = s.dev.pins
      ∧ (release_bus s).polls = s.polls
      ∧ (release_bus s).trace = s.trace
          ++ (match s.dev.spi_dev with
              | some handle => [.spiRemove handle]
              | none => []) := by
  unfold release_bus
  cases hs : s.dev.spi_dev with
  | none => exact ⟨hs, rfl, rfl, rfl, rfl, (List.append_nil _).symm⟩
  | some handle => exact ⟨rfl, rfl, rfl, rfl, rfl, rfl⟩

theorem release_priv_spec (s : State) :
    (release_priv s).dev.priv = none ∧ (release_priv s).dev.spi_dev = s.dev.spi_dev
      ∧ (release_priv s).dev.info = s.dev.info ∧ (release_priv s).dev.pins = s.dev.pins
      ∧ (release_priv s).polls = s.polls
      ∧ (release_priv s).trace = s.trace := by
  unfold release_priv
  cases hp : s.dev.priv with
  | none => exact ⟨hp, rfl, rfl, rfl, rfl, rfl⟩
  | some pr => exact ⟨rfl, rfl, rfl, rfl, rfl, rfl⟩

/-- The outcome of `ssd1619_deinit`: the sleep sequence, then the release of
the bus handle when there is one, then that of the private state. -/
theorem deinit_eq (env : Env) (s : State) :
    ∃ s1, ssd1619_deinit env .valid s = .ret ESP_OK s1
      ∧ s1.dev.spi_dev = none ∧ s1.dev.priv = none
      ∧ s1.dev.info = s.dev.info ∧ s1.dev.pins = s.dev.pins
      ∧ s1.polls = s.polls
      ∧ s1.trace = s.trace
          ++ [.command 0x10, .data 0x01, .taskDelay (100 / env.portTICK_PERIOD_MS)]
          ++ (match s.dev.spi_dev with
              | some handle => [.spiRemove handle]
              | none => []) := by
  unfold ssd1619_deinit
  rw [sleep_eq, ret_bind]
  obtain ⟨b1, b2, b3, b4, b5, b6⟩ := release_bus_spec
    (s.upd [.command 0x10, .data 0x01, .taskDelay (100 / env.portTICK_PERIOD_MS)] 0 0)
  obtain ⟨p1, p2, p3, p4, p5, p6⟩ := release_priv_spec (release_bus
    (s.upd [.command 0x10, .data 0x01, .taskDelay (100 / env.portTICK_PERIOD_MS)] 0 0))
  refine ⟨_, rfl, ?_, p1, ?_, ?_, ?_, ?_⟩
  · rw [p2, b1]
  · rw [p3, b3]; rfl
  · rw [p4, b4]; rfl
  · rw [p5, b5]; rfl
  · rw [p6, b6]; rfl

/-- C22: for a non-null device in any state (so active or already asleep)
`ssd1619_deinit` returns `ESP_OK`; it first sends the sleep sequence (deep
sleep `0x10` with `0x01`, then the settle delay), then releases the bus handle
if there is one; the device is left with no bus handle and no private state,
its information and pins unchanged; a second `ssd1619_deinit` also returns
`ESP_OK`, sending the sleep sequence again and nothing else. -/
theorem C22_deinit (env : Env) (s : State) :
    ∃ s1 s2, ssd1619_deinit env .valid s = .ret ESP_OK s1
      ∧ s1.trace = s.trace
          ++ [.command 0x10, .data 0x01, .taskDelay (100 / env.portTICK_PERIOD_MS)]
          ++ (match s.dev.spi_dev with
              | some handle => [.spiRemove handle]
              | none => [])
      ∧ s1.dev.spi_dev = none ∧ s1.dev.priv = none
      ∧ s1.dev.info = s.dev.info ∧ s1.dev.pins = s.dev.pins
      ∧ ssd1619_deinit env .valid s1 = .ret ESP_OK s2
      ∧ s2.trace = s1.trace
          ++ [.command 0x10, .data 0x01, .taskDelay (100 / env.portTICK_PERIOD_MS)]
      ∧ s2.dev.spi_dev = none ∧ s2.dev.priv = none
      ∧ s2.dev.info = s.dev.info ∧ s2.dev.pins = s.dev.pins := by
  obtain ⟨s1, h1, a1, a2, a3, a4, _, a6⟩ := deinit_eq env s
  obtain ⟨s2, h2, c1, c2, c3, c4, _, c6⟩ := deinit_eq env s1
  refine ⟨s1, s2, h1, a6, a1, a2, a3, a4, h2, ?_, c1, c2, ?_, ?_⟩
  · rw [c6, a1, List.append_nil]
  · rw [c3, a3]
  · rw [c4, a4]

/-- C23: on a device with valid private state, when `epd_spi_init` fails with
error `e`, `ssd1619_init` returns exactly `e`; the only call it has made is
the bus bring-up itself (no GPIO set-up, no reset pulse, no command or data
byte, no busy poll), and the device object, so also the initialized flag, is
unchanged. -/
theorem C23_failed_bring_up (env : Env) (fuel : Nat) (s : State) (p : ssd1619_priv_t)
    (e : esp_err_t) (hp : s.dev.priv = some p) (he : env.spi_init s.spiInits = e)
    (hne : e ≠ ESP_OK) :
    ∃ s2, ssd1619_init env fuel .valid s = .ret e s2
      ∧ s2.trace = s.trace ++ [.spiInit]
      ∧ s2.dev = s.dev
      ∧ s2.dev.priv = some p
      ∧ s2.polls = s.polls := by
  unfold ssd1619_init epd_spi_init
  simp only [hp, he, hne, if_false, ne_eq, not_false_eq_true, if_true]
  exact ⟨_, rfl, rfl, rfl, hp, rfl⟩

/-- Witness for C23: the freshly created 296 x 128 device on a bus that fails
with `ESP_FAIL`. -/
theorem C23_failed_bring_up_witness :
    ∃ s2, ssd1619_init dead_bus_env 1 .valid
        (boot (new_device g_epd_pins 296 128 .EPD_MODE_1C)) = .ret ESP_FAIL s2
      ∧ s2.trace = (boot (new_device g_epd_pins 296 128 .EPD_MODE_1C)).trace ++ [.spiInit]
      ∧ s2.dev = (boot (new_device g_epd_pins 296 128 .EPD_MODE_1C)).dev
      ∧ s2.dev.priv = some
          { lut_full := List.replicate 30 0, lut_partial := List.replicate 30 0,
            rotation := 0, initialized := false }
      ∧ s2.polls = (boot (new_device g_epd_pins 296 128 .EPD_MODE_1C)).polls :=
  C23_failed_bring_up dead_bus_env 1 (boot (new_device g_epd_pins 296 128 .EPD_MODE_1C))
    { lut_full := List.replicate 30 0, lut_partial := List.replicate 30 0, rotation := 0,
      initialized := false }
    ESP_FAIL rfl rfl (by decide)

/-! ## Claims on the sleep wait and on the region window -/

/-- C27, as stated, fails: with a busy input that reads busy forever
`ssd1619_sleep` still returns `ESP_OK`, and it has made no poll of the busy
input at all. -/
theorem C27_sleep_returns_while_busy :
    ∃ s2, ssd1619_sleep stuck_env .valid panel_296x128 = .ret ESP_OK s2
      ∧ s2.polls = panel_296x128.polls
      ∧ s2.trace = panel_296x128.trace
          ++ [.command 0x10, .data 0x01, .taskDelay 100]
      ∧ ∀ i, stuck_env.busy i = true := by
  refine ⟨_, sleep_eq stuck_env panel_296x128, rfl, rfl, fun _ => rfl⟩

/-- C27 amended: after the deep-sleep command `0x10` and its payload `0x01`,
`ssd1619_sleep` does not poll the busy input: it waits the fixed settle delay
`vTaskDelay(100 / portTICK_PERIOD_MS)` and returns `ESP_OK`; the number of
polls made is unchanged and the outcome is the same whatever the busy input
reads. -/
theorem C27_sleep_fixed_delay (env : Env) (busy : Nat → Bool) (s : State) :
    ∃ s2, ssd1619_sleep env .valid s = .ret ESP_OK s2
      ∧ s2.polls = s.polls
      ∧ s2.trace = s.trace
          ++ [.command 0x10, .data 0x01, .taskDelay (100 / env.portTICK_PERIOD_MS)]
      ∧ ssd1619_sleep { env with busy := busy } .valid s = .ret ESP_OK s2 := by
  refine ⟨_, sleep_eq env s, rfl, rfl, ?_⟩
  rw [sleep_eq]

/-- C26 fails on the code: for the region `x = 4, y = 0, w = 8, h = 1` on the
296 x 128 device `ssd1619_display_partial` programs the X range from byte 0 to
byte 1, a window of `((11 >> 3) - (4 >> 3) + 1) * 1 = 2` bytes, and then
streams a single byte, `ceil(8/8) * 1 = 1`, after the write-RAM command. -/
theorem C26_window_wider_than_stream :
    ∃ s2 es, ssd1619_display_partial idle_env 1 .valid (some [0xFF, 0x00]) 4 0 8 1
        panel_296x128 = .ret ESP_OK s2
      ∧ s2.trace = panel_296x128.trace ++ es
      ∧ es = [.command 0x44, .data 0, .data 1,
              .command 0x45, .data 0, .data 0, .data 0, .data 0,
              .command 0x4E, .data 0, .command 0x4F, .data 0, .data 0,
              .command 0x24, .dataBuffer [0xFF],
              .command 0x22, .data 0x04, .command 0x20, .isBusy false]
      ∧ (plane_bytes es).length = 1
      ∧ ((((4 + 8 - 1) >>> 3) - (4 >>> 3)) + 1) * 1 = 2 := by
  refine ⟨_, _, display_partial_ret idle_env 1 [0xFF, 0x00] 4 0 8 1 panel_296x128 0
    (by decide) (idle_ready _) (by decide), ?_, rfl, by decide, by decide⟩
  rw [upd_trace]
  congr 1

/-! ## Claims on the pattern generators -/

/-- The addressing of the pattern generators on a width that is a multiple of
8: the row stride `width / 8` is `ceil(width / 8)`. -/
theorem byte_idx_aligned (width x y : Nat) (hw : width % 8 = 0) :
    byte_idx width x y = y * ((width + 7) / 8) + x / 8 := by
  unfold byte_idx
  have : (width + 7) / 8 = width / 8 := by omega
  rw [this]

/-- C24 fails on the code: on a width of 10 the pixels `(8, 0)` and `(0, 1)`,
both in bounds for a height of 2, get the same byte index 1 and the same bit
mask `0x80`, where `y * ceil(width/8) + x/8` is 1 for the first and 2 for the
second.  In a Pixel Buffer of `ceil(10/8) * 2 = 4` bytes, writing `(8, 0)` black
with the pixel write of
`test_checkerboard_pattern` and then `(0, 1)` white turns `(8, 0)` white; and
the pixel write of the harness, clearing `(0, 1)`, clears the bit of
`(8, 0)`. -/
theorem C24_stride_floor_aliases_pixels :
    byte_idx 10 8 0 = 1 ∧ byte_idx 10 0 1 = 1
      ∧ bit_mask 8 = 0x80 ∧ bit_mask 0 = 0x80
      ∧ 0 * ((10 + 7) / 8) + 8 / 8 = 1 ∧ 1 * ((10 + 7) / 8) + 0 / 8 = 2
      ∧ (∃ b1 b2, checker_pixel 10 1 [0xFF, 0xFF, 0xFF, 0xFF] 8 0 = some b1
          ∧ b1.getD (byte_idx 10 8 0) 0 &&& bit_mask 8 = 0
          ∧ checker_pixel 10 1 b1 0 1 = some b2
          ∧ b2.getD (byte_idx 10 8 0) 0 &&& bit_mask 8 = 0x80)
      ∧ clear_pixel 10 [0xFF, 0xFF, 0xFF, 0xFF] 1 0 = some [0xFF, 0x7F, 0xFF, 0xFF] := by
  refine ⟨by decide, by decide, by decide, by decide, by decide, by decide,
    ⟨[0xFF, 0x7F, 0xFF, 0xFF], [0xFF, 0xFF, 0xFF, 0xFF], by decide, by decide, by decide, by decide⟩,
    by decide⟩

/-- C28 fails on the code: on a 10 x 1 device `test_checkerboard_pattern`
allocates `10 * 1 / 8 = 1` byte and, for the pixel `(8, 0)`, accesses byte
index `0 * (10 / 8) + 8 / 8 = 1`, outside the buffer, whatever the buffer
held. -/
theorem C28_checkerboard_writes_past_buffer (garbage : Nat → Nat) :
    frame_bytes 10 1 = 1 ∧ byte_idx 10 8 0 = 1
      ∧ checker_fill 10 1 1 [garbage 0] = none
      ∧ (test_checkerboard_pattern idle_env 1 .valid 1 garbage
          (boot (new_device g_epd_pins 10 1 .EPD_MODE_1C))).val? = none := by
  refine ⟨by decide, by decide, rfl, rfl⟩

/-- C29 fails on the code: on an 8 x 9 device two runs of
`test_gradient_pattern` that differ only in what the fresh buffer held (all
`0x00`, all `0xFF`) stream different frames, because row 8 is never written;
on a 10 x 4 device two such runs of `test_checkerboard_pattern` with block
size 1 stream different frames, because six bits of the last byte are never
written. -/
theorem C29_uninitialised_bytes_are_streamed :
    (∃ s1 s2,
        test_gradient_pattern idle_env 1 .valid (fun _ => 0x00)
          (boot (new_device g_epd_pins 8 9 .EPD_MODE_1C)) = .ret ESP_OK s1
      ∧ test_gradient_pattern idle_env 1 .valid (fun _ => 0xFF)
          (boot (new_device g_epd_pins 8 9 .EPD_MODE_1C)) = .ret ESP_OK s2
      ∧ plane_bytes s1.trace = [0x00, 0x11, 0x22, 0x44, 0x88, 0xAA, 0xDD, 0xFF, 0x00]
      ∧ plane_bytes s2.trace = [0x00, 0x11, 0x22, 0x44, 0x88, 0xAA, 0xDD, 0xFF, 0xFF])
    ∧ (∃ s1 s2,
        test_checkerboard_pattern idle_env 1 .valid 1 (fun _ => 0x00)
          (boot (new_device g_epd_pins 10 4 .EPD_MODE_1C)) = .ret ESP_OK s1
      ∧ test_checkerboard_pattern idle_env 1 .valid 1 (fun _ => 0xFF)
          (boot (new_device g_epd_pins 10 4 .EPD_MODE_1C)) = .ret ESP_OK s2
      ∧ plane_bytes s1.trace = [0x55, 0xAA, 0x55, 0xAA, 0x80]
      ∧ plane_bytes s2.trace = [0x55, 0xAA, 0x55, 0xAA, 0xBF]) := by
  refine ⟨⟨_, _, rfl, rfl, by decide, by decide⟩, ⟨_, _, rfl, rfl, by decide, by decide⟩⟩

/-! ## Claims on the busy wait -/

theorem wait_while_busy_hang (env : Env) (ticks : Nat) :
    ∀ (fuel : Nat) (s : State), (∀ i, i < fuel → env.busy (s.polls + i) = true) →
      wait_while_busy env ticks fuel s = .hang (s.upd (busy_events ticks fuel) fuel 0) := by
  intro fuel
  induction fuel with
  | zero =>
    intro s _
    simp only [wait_while_busy, busy_events, upd_nil]
  | succ f ih =>
    intro s hb
    have hs : env.busy s.polls = true := by simpa using hb 0 (Nat.succ_pos f)
    have hb1 : ∀ i, i < f →
        env.busy ((s.upd [.isBusy true, .taskDelay ticks] 1 0).polls + i) = true := by
      intro i hi
      have := hb (i + 1) (by omega)
      simpa [Nat.add_assoc, Nat.add_comm 1 i] using this
    simp only [wait_while_busy, is_busy_eq, hs, vTaskDelay, emit_eq, upd_upd]
    rw [show ([Event.isBusy true] ++ [Event.taskDelay ticks]) =
      [Event.isBusy true, Event.taskDelay ticks] from rfl, ih _ hb1]
    congr 1
    apply state_eq
    · rfl
    · simp [busy_events]
    · simp only [upd_polls]; omega
    · simp
    · rfl

/-- Busy-wait on an input that never clears, started in a state reached from
`s` by `upd`. -/
theorem wait_upd_hang (env : Env) (ticks fuel : Nat) (s : State) (es : List Event) (k a : Nat)
    (hb : ∀ i, env.busy (s.polls + k + i) = true) :
    wait_while_busy env ticks fuel (s.upd es k a) =
      .hang (s.upd (es ++ busy_events ticks fuel) (k + fuel) a) := by
  rw [wait_while_busy_hang env ticks fuel (s.upd es k a) (fun i _ => hb i), upd_upd]
  rfl

theorem poll_events_isPoll (ticks : Nat) :
    ∀ (n : Nat) (e : Event), e ∈ poll_events ticks n → Event.isPoll ticks e := by
  intro n
  induction n with
  | zero =>
    intro e he
    simp only [poll_events, List.mem_singleton] at he
    exact Or.inl ⟨false, he⟩
  | succ n ih =>
    intro e he
    simp only [poll_events, List.mem_cons] at he
    rcases he with he | he | he
    · exact Or.inl ⟨true, he⟩
    · exact Or.inr he
    · exact ih e he

theorem busy_events_isPoll (ticks : Nat) :
    ∀ (k : Nat) (e : Event), e ∈ busy_events ticks k → Event.isPoll ticks e := by
  intro k
  induction k with
  | zero =>
    intro e he
    simp [busy_events] at he
  | succ k ih =>
    intro e he
    simp only [busy_events, List.mem_cons] at he
    rcases he with he | he | he
    · exact Or.inl ⟨true, he⟩
    · exact Or.inr he
    · exact ih e he

/-- Once its first wait is over, `ssd1619_send_init_sequence` sends the rest of
the sequence up to master activation and busy-waits. -/
theorem send_init_sequence_eq (env : Env) (fuel : Nat) (s : State) (n1 : Nat)
    (h1 : ReadyAt env s.polls n1) (hf1 : n1 < fuel) :
    ssd1619_send_init_sequence env fuel s =
      wait_while_busy env 1 fuel
        (s.upd (init_sequence_start s.dev.info.width s.dev.info.height n1) (n1 + 1) 0) := by
  have h10 : ReadyAt env (s.polls + 0) n1 := h1
  unfold ssd1619_send_init_sequence
  simp only [epd_send_command, epd_send_data, epd_delay_ms, emit_eq, upd_upd, upd_dev,
    set_memory_area_eq, set_memory_pointer_eq]
  rw [wait_upd env 1 n1 fuel s _ _ _ h10 hf1, ret_bind]
  simp only [upd_upd, upd_dev, Nat.zero_add, Nat.add_zero]
  congr 1
  apply state_eq
  · rfl
  · simp [init_sequence_start, SSD1619_CMD_SW_RESET, SSD1619_CMD_DRIVER_OUTPUT_CONTROL,
      SSD1619_CMD_DATA_ENTRY_MODE, SSD1619_CMD_BORDER_WAVEFORM, SSD1619_CMD_TEMP_SENSOR,
      SSD1619_CMD_DISP_UPDATE_CTRL2, SSD1619_CMD_MASTER_ACTIVATION]
  · rfl
  · rfl
  · rfl

/-- Once the bus is up and the first wait of the init sequence is over,
`ssd1619_init` has sent everything up to master activation and busy-waits. -/
theorem init_eq (env : Env) (fuel : Nat) (s : State) (p : ssd1619_priv_t) (n1 : Nat)
    (hp : s.dev.priv = some p) (hspi : env.spi_init s.spiInits = ESP_OK)
    (h1 : ReadyAt env s.polls n1) (hf1 : n1 < fuel) :
    ssd1619_init env fuel .valid s =
      (wait_while_busy env 1 fuel
        ((spi_up s).upd (gpio_events s.dev.pins ++ reset_events s.dev.pins
          ++ init_sequence_start s.dev.info.width s.dev.info.height n1) (n1 + 1) 0)).bind
        fun _ s => .ret ESP_OK (set_initialized s) := by
  unfold ssd1619_init
  simp only [hp, spi_init_ok env s hspi, ne_eq, not_true_eq_false, if_false, init_gpio_eq,
    reset_eq, ret_bind, upd_dev, upd_upd]
  have h1' : ReadyAt env ((spi_up s).upd (gpio_events (spi_up s).dev.pins
      ++ reset_events (spi_up s).dev.pins) (0 + 0) (0 + 0)).polls n1 := by
    simpa [spi_up] using h1
  rw [send_init_sequence_eq env fuel _ n1 h1' hf1]
  simp only [upd_upd, upd_dev, Nat.zero_add, Nat.add_zero]
  rfl

theorem set_initialized_trace (s : State) : (set_initialized s).trace = s.trace := rfl

theorem set_initialized_polls (s : State) : (set_initialized s).polls = s.polls := rfl

/-- C25: in `ssd1619_display_buffer`, `ssd1619_display_partial` and
`ssd1619_init` (buffer long enough, private state valid, bus up), what follows
the master-activation command `0x20` is the busy-wait loop alone.  If the busy
input reads busy `n` times and then not busy (so first reads not busy at poll
`n + 1`), the operation returns `ESP_OK` for every poll budget above `n`, the
trace ending with `0x20` and the `n + 1` polls (with the yields between
them), the poll counter advanced by exactly `n + 1`; this holds for every
`n`.  If the busy input never clears, then for every poll budget `fuel` the
operation has not returned after `fuel` polls, all of them busy.  The events
of the wait are polls and yields only.  (In `ssd1619_init` the wait after the
software reset comes first and takes `n1 + 1` polls.) -/
theorem C25_busy_wait_has_no_timeout (env : Env) (fuel : Nat) (s : State) (buf : List Nat)
    (mode : epd_update_mode_t) (x y w h : Nat) (p : ssd1619_priv_t) (n1 n : Nat)
    (hlen : frame_bytes s.dev.info.width s.dev.info.height ≤ buf.length)
    (hlenp : h * bytes_per_line w ≤ buf.length)
    (hp : s.dev.priv = some p) (hspi : env.spi_init s.spiInits = ESP_OK) :
    (ReadyAt env s.polls n → n < fuel →
      ∃ s2 pre, ssd1619_display_buffer env fuel .valid (some buf) mode s = .ret ESP_OK s2
        ∧ s2.trace = s.trace ++ pre ++ [.command 0x20] ++ poll_events 10 n
        ∧ s2.polls = s.polls + (n + 1))
    ∧ ((∀ i, env.busy (s.polls + i) = true) →
      ∃ s2 pre, ssd1619_display_buffer env fuel .valid (some buf) mode s = .hang s2
        ∧ s2.trace = s.trace ++ pre ++ [.command 0x20] ++ busy_events 10 fuel
        ∧ s2.polls = s.polls + fuel)
    ∧ (ReadyAt env s.polls n → n < fuel →
      ∃ s2 pre, ssd1619_display_partial env fuel .valid (some buf) x y w h s = .ret ESP_OK s2
        ∧ s2.trace = s.trace ++ pre ++ [.command 0x20] ++ poll_events 10 n
        ∧ s2.polls = s.polls + (n + 1))
    ∧ ((∀ i, env.busy (s.polls + i) = true) →
      ∃ s2 pre, ssd1619_display_partial env fuel .valid (some buf) x y w h s = .hang s2
        ∧ s2.trace = s.trace ++ pre ++ [.command 0x20] ++ busy_events 10 fuel
        ∧ s2.polls = s.polls + fuel)
    ∧ (ReadyAt env s.polls n1 → n1 < fuel → ReadyAt env (s.polls + (n1 + 1)) n → n < fuel →
      ∃ s2 pre, ssd1619_init env fuel .valid s = .ret ESP_OK s2
        ∧ s2.trace = s.trace ++ pre ++ [.command 0x20] ++ poll_events 1 n
        ∧ s2.polls = s.polls + (n1 + 1) + (n + 1))
    ∧ (ReadyAt env s.polls n1 → n1 < fuel →
        (∀ i, env.busy (s.polls + (n1 + 1) + i) = true) →
      ∃ s2 pre, ssd1619_init env fuel .valid s = .hang s2
        ∧ s2.trace = s.trace ++ pre ++ [.command 0x20] ++ busy_events 1 fuel
        ∧ s2.polls = s.polls + (n1 + 1) + fuel)
    ∧ (∀ ticks k e, e ∈ poll_events ticks k ∨ e ∈ busy_events ticks k →
        Event.isPoll ticks e) := by
  refine ⟨fun hr hf => ?_, fun hb => ?_, fun hr hf => ?_, fun hb => ?_,
    fun hr1 hf1 hr2 hf => ?_, fun hr1 hf1 hb => ?_, fun ticks k e he => ?_⟩
  · have hr0 : ReadyAt env (s.polls + 0) n := hr
    have e : ssd1619_display_buffer env fuel .valid (some buf) mode s = .ret ESP_OK
        (s.upd (display_buffer_events s.dev (env.alloc s.allocs) buf mode ++ poll_events 10 n)
          (0 + (n + 1)) (display_buffer_allocs s.dev)) := by
      rw [display_buffer_eq env fuel buf mode s hlen, wait_upd env 10 n fuel s _ _ _ hr0 hf,
        ret_bind]
    refine ⟨_, window_events 0 0 (toU16 ((s.dev.info.width : Int) - 1))
        (toU16 ((s.dev.info.height : Int) - 1)) ++ cursor_events 0 0
      ++ [.command 0x24, .dataBuffer (buf.take (frame_bytes s.dev.info.width s.dev.info.height))]
      ++ red_events s.dev.info.color_mode (env.alloc s.allocs)
        (frame_bytes s.dev.info.width s.dev.info.height)
      ++ [.command 0x22, .data (trigger_byte mode)], e, ?_, ?_⟩
    · simp only [upd_trace, display_buffer_events, List.append_assoc, List.cons_append,
        List.nil_append]
    · simp only [upd_polls, Nat.zero_add]
  · have hb0 : ∀ i, env.busy (s.polls + 0 + i) = true := hb
    have e : ssd1619_display_buffer env fuel .valid (some buf) mode s = .hang
        (s.upd (display_buffer_events s.dev (env.alloc s.allocs) buf mode ++ busy_events 10 fuel)
          (0 + fuel) (display_buffer_allocs s.dev)) := by
      rw [display_buffer_eq env fuel buf mode s hlen, wait_upd_hang env 10 fuel s _ _ _ hb0]
      rfl
    refine ⟨_, window_events 0 0 (toU16 ((s.dev.info.width : Int) - 1))
        (toU16 ((s.dev.info.height : Int) - 1)) ++ cursor_events 0 0
      ++ [.command 0x24, .dataBuffer (buf.take (frame_bytes s.dev.info.width s.dev.info.height))]
      ++ red_events s.dev.info.color_mode (env.alloc s.allocs)
        (frame_bytes s.dev.info.width s.dev.info.height)
      ++ [.command 0x22, .data (trigger_byte mode)], e, ?_, ?_⟩
    · simp only [upd_trace, display_buffer_events, List.append_assoc, List.cons_append,
        List.nil_append]
    · simp only [upd_polls, Nat.zero_add]
  · have hr0 : ReadyAt env (s.polls + 0) n := hr
    have e : ssd1619_display_partial env fuel .valid (some buf) x y w h s = .ret ESP_OK
        (s.upd (display_partial_events buf x y w h ++ poll_events 10 n) (0 + (n + 1)) 0) := by
      rw [display_partial_eq env fuel buf x y w h s hlenp,
        wait_upd env 10 n fuel s _ _ _ hr0 hf, ret_bind]
    refine ⟨_, window_events x y (toU16 ((x : Int) + (w : Int) - 1))
        (toU16 ((y : Int) + (h : Int) - 1)) ++ cursor_events x y ++ [.command 0x24]
      ++ row_events buf (bytes_per_line w) h 0 ++ [.command 0x22, .data 0x04], e, ?_, ?_⟩
    · simp only [upd_trace, display_partial_events, List.append_assoc, List.cons_append,
        List.nil_append]
    · simp only [upd_polls, Nat.zero_add]
  · have hb0 : ∀ i, env.busy (s.polls + 0 + i) = true := hb
    have e : ssd1619_display_partial env fuel .valid (some buf) x y w h s = .hang
        (s.upd (display_partial_events buf x y w h ++ busy_events 10 fuel) (0 + fuel) 0) := by
      rw [display_partial_eq env fuel buf x y w h s hlenp,
        wait_upd_hang env 10 fuel s _ _ _ hb0]
      rfl
    refine ⟨_, window_events x y (toU16 ((x : Int) + (w : Int) - 1))
        (toU16 ((y : Int) + (h : Int) - 1)) ++ cursor_events x y ++ [.command 0x24]
      ++ row_events buf (bytes_per_line w) h 0 ++ [.command 0x22, .data 0x04], e, ?_, ?_⟩
    · simp only [upd_trace, display_partial_events, List.append_assoc, List.cons_append,
        List.nil_append]
    · simp only [upd_polls, Nat.zero_add]
  · have hr2' : ReadyAt env ((spi_up s).polls + (n1 + 1)) n := hr2
    have e : ssd1619_init env fuel .valid s = .ret ESP_OK (set_initialized
        ((spi_up s).upd (gpio_events s.dev.pins ++ reset_events s.dev.pins
          ++ init_sequence_start s.dev.info.width s.dev.info.height n1 ++ poll_events 1 n)
          (n1 + 1 + (n + 1)) 0)) := by
      rw [init_eq env fuel s p n1 hp hspi hr1 hf1,
        wait_upd env 1 n fuel (spi_up s) _ _ _ hr2' hf, ret_bind]
    refine ⟨_, [.spiInit] ++ gpio_events s.dev.pins ++ reset_events s.dev.pins
      ++ [.command 0x12, .delayMs 10] ++ poll_events 1 n1
      ++ [.command 0x01, .data (toU8 ((s.dev.info.height : Int) - 1)),
          .data (toU8 (((s.dev.info.height : Int) - 1) >>> 8)), .data 0x00,
          .command 0x11, .data 0x03]
      ++ window_events 0 0 (toU16 ((s.dev.info.width : Int) - 1))
        (toU16 ((s.dev.info.height : Int) - 1))
      ++ cursor_events 0 0
      ++ [.command 0x3C, .data 0x05, .command 0x1A, .data 0x80, .command 0x22, .data 0xC0], e, ?_, ?_⟩
    · simp only [set_initialized_trace, upd_trace, init_sequence_start, spi_up, List.append_assoc,
        List.cons_append, List.nil_append]
    · simp only [set_initialized_polls, upd_polls, spi_up, Nat.add_assoc]
  · have hb' : ∀ i, env.busy ((spi_up s).polls + (n1 + 1) + i) = true := hb
    have e : ssd1619_init env fuel .valid s = .hang
        ((spi_up s).upd (gpio_events s.dev.pins ++ reset_events s.dev.pins
          ++ init_sequence_start s.dev.info.width s.dev.info.height n1 ++ busy_events 1 fuel)
          (n1 + 1 + fuel) 0) := by
      rw [init_eq env fuel s p n1 hp hspi hr1 hf1,
        wait_upd_hang env 1 fuel (spi_up s) _ _ _ hb']
      rfl
    refine ⟨_, [.spiInit] ++ gpio_events s.dev.pins ++ reset_events s.dev.pins
      ++ [.command 0x12, .delayMs 10] ++ poll_events 1 n1
      ++ [.command 0x01, .data (toU8 ((s.dev.info.height : Int) - 1)),
          .data (toU8 (((s.dev.info.height : Int) - 1) >>> 8)), .data 0x00,
          .command 0x11, .data 0x03]
      ++ window_events 0 0 (toU16 ((s.dev.info.width : Int) - 1))
        (toU16 ((s.dev.info.height : Int) - 1))
      ++ cursor_events 0 0
      ++ [.command 0x3C, .data 0x05, .command 0x1A, .data 0x80, .command 0x22, .data 0xC0], e, ?_, ?_⟩
    · simp only [upd_trace, init_sequence_start, spi_up, List.append_assoc, List.cons_append,
        List.nil_append]
    · simp only [upd_polls, spi_up, Nat.add_assoc]
  · rcases he with he | he
    · exact poll_events_isPoll ticks k e he
    · exact busy_events_isPoll ticks k e he

/-- Witness for C25: on the initialized 296 x 128 device, a full-frame and a
region paint with a controller that is never busy return after one poll, and
with a controller that is busy forever have not returned after 3 polls; on the
freshly created device, `ssd1619_init` returns after one poll per wait with the
first controller, and has not returned after 3 more polls with a controller
that answers the software reset and then stays busy. -/
theorem C25_busy_wait_has_no_timeout_witness :
    (∃ s2 pre, ssd1619_display_buffer idle_env 1 .valid (some (List.replicate 4736 0xAA))
          .EPD_UPDATE_FULL panel_296x128 = .ret ESP_OK s2
        ∧ s2.trace = panel_296x128.trace ++ pre ++ [.command 0x20] ++ poll_events 10 0
        ∧ s2.polls = panel_296x128.polls + (0 + 1))
    ∧ (∃ s2 pre, ssd1619_display_buffer stuck_env 3 .valid (some (List.replicate 4736 0xAA))
          .EPD_UPDATE_FULL panel_296x128 = .hang s2
        ∧ s2.trace = panel_296x128.trace ++ pre ++ [.command 0x20] ++ busy_events 10 3
        ∧ s2.polls = panel_296x128.polls + 3)
    ∧ (∃ s2 pre, ssd1619_display_partial idle_env 1 .valid
          (some (List.replicate 4736 0xAA)) 0 0 8 1 panel_296x128 = .ret ESP_OK s2
        ∧ s2.trace = panel_296x128.trace ++ pre ++ [.command 0x20] ++ poll_events 10 0
        ∧ s2.polls = panel_296x128.polls + (0 + 1))
    ∧ (∃ s2 pre, ssd1619_display_partial stuck_env 3 .valid
          (some (List.replicate 4736 0xAA)) 0 0 8 1 panel_296x128 = .hang s2
        ∧ s2.trace = panel_296x128.trace ++ pre ++ [.command 0x20] ++ busy_events 10 3
        ∧ s2.polls = panel_296x128.polls + 3)
    ∧ (∃ s2 pre, ssd1619_init idle_env 1 .valid
          (boot (new_device g_epd_pins 296 128 .EPD_MODE_1C)) = .ret ESP_OK s2
        ∧ s2.trace = (boot (new_device g_epd_pins 296 128 .EPD_MODE_1C)).trace ++ pre
            ++ [.command 0x20] ++ poll_events 1 0
        ∧ s2.polls = (boot (new_device g_epd_pins 296 128 .EPD_MODE_1C)).polls
            + (0 + 1) + (0 + 1))
    ∧ (∃ s2 pre, ssd1619_init hung_refresh_env 3 .valid
          (boot (new_device g_epd_pins 296 128 .EPD_MODE_1C)) = .hang s2
        ∧ s2.trace = (boot (new_device g_epd_pins 296 128 .EPD_MODE_1C)).trace ++ pre
            ++ [.command 0x20] ++ busy_events 1 3
        ∧ s2.polls = (boot (new_device g_epd_pins 296 128 .EPD_MODE_1C)).polls
            + (0 + 1) + 3) := by
  have hlen : frame_bytes panel_296x128.dev.info.width panel_296x128.dev.info.height
      ≤ (List.replicate 4736 0xAA).length := by
    rw [panel_296x128_info.1, panel_296x128_info.2.1, frame_bytes_296x128,
      List.length_replicate]
  have hlen0 : frame_bytes (boot (new_device g_epd_pins 296 128 .EPD_MODE_1C)).dev.info.width
      (boot (new_device g_epd_pins 296 128 .EPD_MODE_1C)).dev.info.height
      ≤ (List.replicate 4736 0xAA).length := by
    show frame_bytes 296 128 ≤ (List.replicate 4736 0xAA).length
    rw [frame_bytes_296x128, List.length_replicate]
  have hlenp : 1 * bytes_per_line 8 ≤ (List.replicate 4736 0xAA).length := by
    rw [List.length_replicate]
    decide
  have idle := C25_busy_wait_has_no_timeout idle_env 1 panel_296x128
    (List.replicate 4736 0xAA) .EPD_UPDATE_FULL 0 0 8 1
    { lut_full := List.replicate 30 0, lut_partial := List.replicate 30 0, rotation := 0,
      initialized := true }
    0 0 hlen hlenp (by decide) rfl
  have stuck := C25_busy_wait_has_no_timeout stuck_env 3 panel_296x128
    (List.replicate 4736 0xAA) .EPD_UPDATE_FULL 0 0 8 1
    { lut_full := List.replicate 30 0, lut_partial := List.replicate 30 0, rotation := 0,
      initialized := true }
    0 0 hlen hlenp (by decide) rfl
  have idle0 := C25_busy_wait_has_no_timeout idle_env 1
    (boot (new_device g_epd_pins 296 128 .EPD_MODE_1C))
    (List.replicate 4736 0xAA) .EPD_UPDATE_FULL 0 0 8 1
    { lut_full := List.replicate 30 0, lut_partial := List.replicate 30 0, rotation := 0,
      initialized := false }
    0 0 hlen0 hlenp rfl rfl
  have hung := C25_busy_wait_has_no_timeout hung_refresh_env 3
    (boot (new_device g_epd_pins 296 128 .EPD_MODE_1C))
    (List.replicate 4736 0xAA) .EPD_UPDATE_FULL 0 0 8 1
    { lut_full := List.replicate 30 0, lut_partial := List.replicate 30 0, rotation := 0,
      initialized := false }
    0 0 hlen0 hlenp rfl rfl
  exact ⟨idle.1 (idle_ready _) (by decide), stuck.2.1 (fun _ => rfl),
    idle.2.2.1 (idle_ready _) (by decide), stuck.2.2.2.1 (fun _ => rfl),
    idle0.2.2.2.2.1 (idle_ready _) (by decide) (idle_ready _) (by decide),
    hung.2.2.2.2.2.1 ⟨fun i hi => absurd hi (Nat.not_lt_zero i), rfl⟩ (by decide)
      (fun i => decide_eq_true (by
        show 1 ≤ (boot (new_device g_epd_pins 296 128 .EPD_MODE_1C)).polls + (0 + 1) + i
        omega))⟩

end Epd
